import Mathlib

/-! # VerdeVital2: sensor state store, threshold evaluator and timeout detector

Shallow embedding of `src/main.cpp` (an ESP32 sketch).  The global variables of
the sketch become one `State` record that every function takes and returns; the
calls to `bot.sendMessage` and `Serial.print*` become a list of `Effect`s in
program order; every call of `millis()` becomes an explicit clock argument.

Numbers:
* `float` values are `CFloat`: not-a-number, the two infinities, or a finite
  value carried as an exact rational.  Comparisons follow IEEE-754 (every
  comparison with not-a-number is false).  The subtraction inside the
  near-duplicate test is the binary32 subtraction: the exact difference rounded
  to the nearest binary32 number, a tie going to the even one.
* `unsigned long` is 32 bits wide on the ESP32: clock readings are naturals and
  the subtraction `millis() - lastUpdate` is taken modulo `2^32`.

Libraries:
* The socket `udp` is a list of waiting datagrams, each a list of bytes;
  `udp.parsePacket()` takes the next one and returns its length, 0 when none is
  waiting.  The record `SensorData` is laid out as the compiler of the ESP32
  does: members in order, each on its alignment.
* The strings built by `snprintf` are lists of UTF-8 bytes; `%.2f` prints the
  value rounded to two decimals.
-/

namespace VerdeVital

/-! ## The C type float -/

/-- Value of the C type `float`. -/
inductive CFloat where
  | nan
  | negInf
  | posInf
  | fin (q : ℚ)
  deriving DecidableEq

/-- A rational that is not negative, rounded to the nearest natural number, a tie
going to the even one. -/
def roundHalfEven (q : ℚ) : Nat :=
  let f := ⌊q⌋.toNat
  if q - f < 1 / 2 then f
  else if 1 / 2 < q - f then f + 1
  else if f % 2 = 0 then f else f + 1

/-- The binary32 exponent of a magnitude `a`: the `e` with `2^e <= a < 2^(e+1)`,
and -126, the exponent of the subnormal numbers, for the magnitudes below
`2^(-126)`. -/
def binadeExp (a : ℚ) : ℤ := max (Int.log 2 a) (-126)

/-- A magnitude rounded to binary32, before the overflow test: binary32 numbers
with exponent `e` are the multiples of `2^(e-23)`, and the magnitude goes to the
nearest multiple, a tie going to the even one. -/
def roundMag32 (a : ℚ) : ℚ :=
  (roundHalfEven (a / 2 ^ (binadeExp a - 23)) : ℚ) * 2 ^ (binadeExp a - 23)

/-- A rational rounded to the nearest `float` (binary32, round to nearest, ties to
even); a result of magnitude `2^128` or more is an infinity. -/
def round32 (q : ℚ) : CFloat :=
  if (2 : ℚ) ^ (128 : ℤ) ≤ roundMag32 |q| then (if q < 0 then .negInf else .posInf)
  else .fin (if q < 0 then -roundMag32 |q| else roundMag32 |q|)

namespace CFloat

/-- The C comparison `a < b`; `a > b` is `lt b a`. -/
def lt : CFloat → CFloat → Bool
  | fin a, fin b => decide (a < b)
  | negInf, fin _ => true
  | negInf, posInf => true
  | fin _, posInf => true
  | _, _ => false

/-- The C comparison `a <= b` (used to state range conditions, the sketch itself
only uses `<` and `>`). -/
def le : CFloat → CFloat → Bool
  | fin a, fin b => decide (a ≤ b)
  | negInf, fin _ => true
  | negInf, posInf => true
  | fin _, posInf => true
  | negInf, negInf => true
  | posInf, posInf => true
  | _, _ => false

/-- The difference of two values without rounding (used to state how far apart
two values are; the sketch computes `sub`). -/
def exactSub : CFloat → CFloat → CFloat
  | fin a, fin b => fin (a - b)
  | fin _, posInf => negInf
  | fin _, negInf => posInf
  | posInf, fin _ => posInf
  | posInf, negInf => posInf
  | negInf, fin _ => negInf
  | negInf, posInf => negInf
  | _, _ => nan

/-- The C subtraction `a - b` of two `float`s: the difference rounded to
binary32. -/
def sub : CFloat → CFloat → CFloat
  | fin a, fin b => round32 (a - b)
  | fin _, posInf => negInf
  | fin _, negInf => posInf
  | posInf, fin _ => posInf
  | posInf, negInf => posInf
  | negInf, fin _ => negInf
  | negInf, posInf => negInf
  | _, _ => nan

/-- The library function `fabs`. -/
def fabs : CFloat → CFloat
  | fin a => fin |a|
  | posInf => posInf
  | negInf => posInf
  | nan => nan

end CFloat

/-! ## Constants and globals -/

/-- Alert threshold of the light sensor (`THRESHOLD_LIGHT = 500.0`). -/
def THRESHOLD_LIGHT : CFloat := .fin 500

/-- Alert threshold of the temperature sensor (`THRESHOLD_TEMP = 24.0`). -/
def THRESHOLD_TEMP : CFloat := .fin 24

/-- Alert threshold of the humidity sensor (`THRESHOLD_HUM = 80.0`). -/
def THRESHOLD_HUM : CFloat := .fin 80

/-- Longest time without data before a sensor is reported, in milliseconds. -/
def SENSOR_TIMEOUT_MS : Nat := 20000

/-- Number of values of `unsigned long` (32 bits). -/
def ULONG_RANGE : Nat := 4294967296

/-- Subtraction of two `unsigned long` values: the difference modulo `2^32`. -/
def ulongSub (a b : Nat) : Nat :=
  (a % ULONG_RANGE + ULONG_RANGE - b % ULONG_RANGE) % ULONG_RANGE

/-- The record `SensorData` decoded from a datagram: `id` is 1 for humidity,
2 for temperature, 3 for light. -/
structure SensorData where
  id : Nat
  data : CFloat
  deriving DecidableEq

/-- The record `SensorValues`: the last stored value of each sensor. -/
structure SensorValues where
  light : CFloat := .fin 0
  temperature : CFloat := .fin 0
  humidity : CFloat := .fin 0
  deriving DecidableEq

/-- The mutable globals of the sketch. -/
structure State where
  sensors : SensorValues := {}
  lastHumidityUpdate : Nat := 0
  lastTemperatureUpdate : Nat := 0
  lastLightUpdate : Nat := 0
  alertHumidityTimeoutSent : Bool := false
  alertTemperatureTimeoutSent : Bool := false
  alertLightTimeoutSent : Bool := false
  deriving DecidableEq

/-- The globals as initialised at process start. -/
def State.initial : State := {}

/-! ## Observable effects -/

/-- One line appended to the `alert` buffer of `verifyThresholdsAndNotify`; the
value is the one printed with two decimals. -/
inductive AlertLine where
  /-- The line `Alta luz: <value> lx`. -/
  | light (value : CFloat)
  /-- The line `Alta temperatura: <value> °C`. -/
  | temperature (value : CFloat)
  /-- The line `Alta humedad: <value> %`. -/
  | humidity (value : CFloat)
  deriving DecidableEq

/-- A text handed to `bot.sendMessage`. -/
inductive Notification where
  /-- The header `Alerta de sensores:` followed by the contents of `alert`. -/
  | sensorAlert (alert : List AlertLine)
  /-- The text `El sensor de *<sensorName>* ha dejado de responder.` -/
  | timeout (sensorName : String)
  deriving DecidableEq

/-- A line written to `Serial`. -/
inductive SerialMsg where
  /-- `Dato de sensor fuera de rango. Ignorado.` -/
  | outOfRange
  /-- `ID de sensor desconocido` -/
  | unknownId
  /-- `Sensor <id> actualizado: <data>` -/
  | updated (id : Nat) (data : CFloat)
  /-- `Humedad: .. | Temperatura: .. | Luz: ..` -/
  | values (humidity temperature light : CFloat)
  /-- `Alerta enviada a Telegram` -/
  | alertSent
  /-- `Sensor de <sensorName> inactivo` -/
  | inactive (sensorName : String)
  /-- `Paquete UDP con tamaño inesperado. Ignorado.` -/
  | unexpectedSize
  deriving DecidableEq

/-- An externally visible action of the sketch. -/
inductive Effect where
  | sendMessage (text : Notification)
  | serial (line : SerialMsg)
  deriving DecidableEq

/-! ## The functions of the sketch -/

/-- The two `Serial.printf` calls that end `updateSensorValue` after an applied
update. -/
def updatedLog (received : SensorData) (s : State) : List Effect :=
  [.serial (.updated received.id received.data),
   .serial (.values s.sensors.humidity s.sensors.temperature s.sensors.light)]

/-- The function `updateSensorValue`; `now` is the value read from `millis()`.
The constant `0.1` of the near-duplicate test is a `double`; the difference it is
compared with is a binary32 number, and no binary32 number lies between 1/10 and
that `double`, so the comparison with 1/10 gives the same result. -/
def updateSensorValue (now : Nat) (received : SensorData) (s : State) :
    State × List Effect :=
  if CFloat.lt received.data (.fin 0) || CFloat.lt (.fin 1000) received.data then
    (s, [.serial .outOfRange])
  else
    match received.id with
    | 1 =>
      if CFloat.lt (CFloat.fabs (CFloat.sub received.data s.sensors.humidity))
          (.fin (1 / 10)) then (s, [])
      else
        let s1 := { s with
          sensors := { s.sensors with humidity := received.data }
          lastHumidityUpdate := now
          alertHumidityTimeoutSent := false }
        (s1, updatedLog received s1)
    | 2 =>
      if CFloat.lt (CFloat.fabs (CFloat.sub received.data s.sensors.temperature))
          (.fin (1 / 10)) then (s, [])
      else
        let s1 := { s with
          sensors := { s.sensors with temperature := received.data }
          lastTemperatureUpdate := now
          alertTemperatureTimeoutSent := false }
        (s1, updatedLog received s1)
    | 3 =>
      if CFloat.lt (CFloat.fabs (CFloat.sub received.data s.sensors.light))
          (.fin (1 / 10)) then (s, [])
      else
        let s1 := { s with
          sensors := { s.sensors with light := received.data }
          lastLightUpdate := now
          alertLightTimeoutSent := false }
        (s1, updatedLog received s1)
    | _ => (s, [.serial .unknownId])

/-- The contents of the buffer `alert` of `verifyThresholdsAndNotify` after its
three tests, as the list of the lines appended to it; the buffer starts empty. -/
def alertBuffer (s : State) : List AlertLine :=
  let alert : List AlertLine := []
  let alert :=
    if CFloat.lt THRESHOLD_LIGHT s.sensors.light then
      alert ++ [.light s.sensors.light] else alert
  let alert :=
    if CFloat.lt THRESHOLD_TEMP s.sensors.temperature then
      alert ++ [.temperature s.sensors.temperature] else alert
  let alert :=
    if CFloat.lt THRESHOLD_HUM s.sensors.humidity then
      alert ++ [.humidity s.sensors.humidity] else alert
  alert

/-- The function `verifyThresholdsAndNotify`: the buffer is sent, under the
header, when it is not empty. -/
def verifyThresholdsAndNotify (s : State) : State × List Effect :=
  let alert := alertBuffer s
  if alert ≠ [] then
    (s, [.sendMessage (.sensorAlert alert), .serial .alertSent])
  else
    (s, [])

/-- The function `checkTimeout`; `now` is the value read from `millis()`, the
result carries the new value of the reference parameter `alertSent`. -/
def checkTimeout (now lastUpdate : Nat) (alertSent : Bool) (sensorName : String) :
    Bool × List Effect :=
  if decide (ulongSub now lastUpdate > SENSOR_TIMEOUT_MS) && !alertSent then
    (true, [.sendMessage (.timeout sensorName), .serial (.inactive sensorName)])
  else
    (alertSent, [])

/-- The three sensor channels. -/
inductive Channel where
  | humidity
  | temperature
  | light
  deriving DecidableEq

namespace Channel

/-- The `id` byte that addresses the channel in `updateSensorValue`. -/
def id : Channel → Nat
  | humidity => 1
  | temperature => 2
  | light => 3

/-- The name passed to `checkTimeout` for the channel. -/
def sensorName : Channel → String
  | humidity => "humedad"
  | temperature => "temperatura"
  | light => "luz"

end Channel

/-- The stored value of a channel. -/
def State.value (s : State) : Channel → CFloat
  | .humidity => s.sensors.humidity
  | .temperature => s.sensors.temperature
  | .light => s.sensors.light

/-- The last-update time of a channel. -/
def State.lastUpdate (s : State) : Channel → Nat
  | .humidity => s.lastHumidityUpdate
  | .temperature => s.lastTemperatureUpdate
  | .light => s.lastLightUpdate

/-- The timeout-alert flag of a channel. -/
def State.alertSent (s : State) : Channel → Bool
  | .humidity => s.alertHumidityTimeoutSent
  | .temperature => s.alertTemperatureTimeoutSent
  | .light => s.alertLightTimeoutSent

/-- One line of `checkSensorTimeouts`: the call of `checkTimeout` for a channel,
with the flag written back through the reference parameter. -/
def checkTimeoutOf (c : Channel) (now : Nat) (s : State) : State × List Effect :=
  match c with
  | .humidity =>
    let r := checkTimeout now s.lastHumidityUpdate s.alertHumidityTimeoutSent "humedad"
    ({ s with alertHumidityTimeoutSent := r.1 }, r.2)
  | .temperature =>
    let r := checkTimeout now s.lastTemperatureUpdate s.alertTemperatureTimeoutSent
      "temperatura"
    ({ s with alertTemperatureTimeoutSent := r.1 }, r.2)
  | .light =>
    let r := checkTimeout now s.lastLightUpdate s.alertLightTimeoutSent "luz"
    ({ s with alertLightTimeoutSent := r.1 }, r.2)

/-- The function `checkSensorTimeouts`; each call of `checkTimeout` reads the
clock on its own. -/
def checkSensorTimeouts (nowHumidity nowTemperature nowLight : Nat) (s : State) :
    State × List Effect :=
  let r1 := checkTimeoutOf .humidity nowHumidity s
  let r2 := checkTimeoutOf .temperature nowTemperature r1.1
  let r3 := checkTimeoutOf .light nowLight r2.1
  (r3.1, r1.2 ++ r2.2 ++ r3.2)

/-! ## Executions -/

/-- A call made by the poll loop. -/
inductive Event where
  /-- A call `updateSensorValue(received)` with `millis()` reading `now`. -/
  | update (now : Nat) (received : SensorData)
  /-- A call `verifyThresholdsAndNotify()`. -/
  | verify
  /-- The call of `checkTimeout` for one channel with `millis()` reading `now`. -/
  | check (c : Channel) (now : Nat)
  /-- A call `checkSensorTimeouts()` with the three clock readings. -/
  | checkAll (nowHumidity nowTemperature nowLight : Nat)

/-- The effect of one call on the globals. -/
def step (e : Event) (s : State) : State × List Effect :=
  match e with
  | .update now received => updateSensorValue now received s
  | .verify => verifyThresholdsAndNotify s
  | .check c now => checkTimeoutOf c now s
  | .checkAll nh nt nl => checkSensorTimeouts nh nt nl s

/-- A sequence of calls, run in order; the effects are concatenated. -/
def run : List Event → State → State × List Effect
  | [], s => (s, [])
  | e :: es, s =>
    let r := step e s
    let rs := run es r.1
    (rs.1, r.2 ++ rs.2)

/-- The messages handed to the notifier, in order. -/
def sent : List Effect → List Notification
  | [] => []
  | .sendMessage m :: es => m :: sent es
  | .serial _ :: es => sent es

/-- Number of silence notifications naming the channel among the effects. -/
def timeoutAlerts (c : Channel) (es : List Effect) : Nat :=
  (sent es).count (.timeout c.sensorName)

/-- Whether an update was applied to the channel among the effects: the line
`Sensor <id> actualizado` is printed exactly on that path. -/
def updateApplied (c : Channel) : List Effect → Bool
  | [] => false
  | .serial (.updated i _) :: es => decide (i = c.id) || updateApplied c es
  | _ :: es => updateApplied c es

/-- The clock reading used by the timeout check of channel `c` in a call, when
the call makes one. -/
def checkClock (c : Channel) : Event → Option Nat
  | .check d now => if d = c then some now else none
  | .checkAll nh nt nl =>
    match c with
    | .humidity => some nh
    | .temperature => some nt
    | .light => some nl
  | _ => none

/-! ## The datagram interface: `listenUDP` -/

/-- Size and alignment, in bytes, of a member type under the ABI of the ESP32. -/
structure CType where
  size : Nat
  align : Nat

/-- The type `uint8_t`: one byte, no alignment constraint. -/
def CType.uint8_t : CType := ⟨1, 1⟩

/-- The type `float`: four bytes, aligned on four bytes. -/
def CType.float : CType := ⟨4, 4⟩

/-- The smallest multiple of `a` that is at least `n`. -/
def alignUp (n a : Nat) : Nat := (n + a - 1) / a * a

/-- The offset just behind the last member of a record whose members are laid out
in declaration order, each at the next offset that satisfies its alignment. -/
def membersEnd (members : List CType) : Nat :=
  members.foldl (fun offset m => alignUp offset m.align + m.size) 0

/-- The alignment of a record: the largest alignment of its members. -/
def recordAlign (members : List CType) : Nat :=
  members.foldl (fun a m => max a m.align) 1

/-- The value of `sizeof` for a record: the end of its members, rounded up to the
alignment of the record. -/
def sizeofRecord (members : List CType) : Nat :=
  alignUp (membersEnd members) (recordAlign members)

/-- The value of `sizeof(SensorData)` for `struct SensorData { uint8_t id; float data; }`. -/
def sizeofSensorData : Nat := sizeofRecord [CType.uint8_t, CType.float]

/-- The offset of the member `data` in `SensorData`. -/
def offsetofData : Nat := alignUp CType.uint8_t.size CType.float.align

/-- The value of the `float` whose IEEE-754 binary32 bit pattern is `bits`. -/
def floatOfBits (bits : Nat) : CFloat :=
  let sign := bits / 2147483648 % 2
  let e := bits / 8388608 % 256
  let m := bits % 8388608
  if e = 255 then
    if m = 0 then (if sign = 1 then .negInf else .posInf) else .nan
  else
    let mag : ℚ :=
      if e = 0 then (m : ℚ) * 2 ^ (-149 : ℤ)
      else ((8388608 + m : Nat) : ℚ) * 2 ^ ((e : ℤ) - 150)
    .fin (if sign = 1 then -mag else mag)

/-- The byte at position `i` of a datagram. -/
def byteAt (bytes : List Nat) (i : Nat) : Nat := bytes.getD i 0 % 256

/-- The record that `udp.read((uint8_t*)&received, sizeof(SensorData))` leaves in
`received`: the bytes of the datagram are copied over the record, so `id` is the
byte at offset 0 and `data` is the little-endian `float` at the offset of `data`;
the padding bytes in between are not looked at. -/
def readSensorData (bytes : List Nat) : SensorData :=
  { id := byteAt bytes 0
    data := floatOfBits
      (byteAt bytes offsetofData + 256 * byteAt bytes (offsetofData + 1) +
        65536 * byteAt bytes (offsetofData + 2) +
        16777216 * byteAt bytes (offsetofData + 3)) }

/-- A datagram waiting in the socket, together with the value that `millis()`
reads while the datagram is handled. -/
structure Datagram where
  bytes : List Nat
  clock : Nat

/-- The loop `while (udp.parsePacket())` of `listenUDP`.  A call of
`udp.parsePacket()` takes the next waiting datagram and returns its length in
bytes, and returns 0 when none is waiting; `udp.available()` is then the length
of that datagram.  A returned length of 0 ends the loop, so a datagram without
payload ends it too and the datagrams behind it stay in the socket. -/
def drainUDP : List Datagram → State → State × List Effect
  | [], s => (s, [])
  | d :: ds, s =>
    if d.bytes.length = 0 then (s, [])
    else if d.bytes.length = sizeofSensorData then
      let r := updateSensorValue d.clock (readSensorData d.bytes) s
      let rs := drainUDP ds r.1
      (rs.1, r.2 ++ rs.2)
    else
      let rs := drainUDP ds s
      (rs.1, .serial .unexpectedSize :: rs.2)

/-- The function `listenUDP`: the loop over the waiting datagrams, then one call
of `verifyThresholdsAndNotify`. -/
def listenUDP (pending : List Datagram) (s : State) : State × List Effect :=
  let r := drainUDP pending s
  let v := verifyThresholdsAndNotify r.1
  (v.1, r.2 ++ v.2)

/-- The function `loop`: one poll cycle. -/
def loop (pending : List Datagram) (nowHumidity nowTemperature nowLight : Nat)
    (s : State) : State × List Effect :=
  let r := listenUDP pending s
  let t := checkSensorTimeouts nowHumidity nowTemperature nowLight r.1
  (t.1, r.2 ++ t.2)

/-- The effect of one datagram with payload on the globals: the call of
`updateSensorValue` when its length is `sizeof(SensorData)`, nothing otherwise. -/
def receive (s : State) (d : Datagram) : State :=
  if d.bytes.length = sizeofSensorData then
    (updateSensorValue d.clock (readSensorData d.bytes) s).1
  else s

/-! ## The text of the threshold alert -/

/-- The UTF-8 bytes of a string of the sketch. -/
def utf8 (s : String) : List Nat :=
  (s.data.flatMap String.utf8EncodeChar).map UInt8.toNat

/-- The bytes that the conversion `%.2f` prints for a value: an optional sign,
the integer part in decimal, a point and two decimals. -/
def printf2f : CFloat → List Nat
  | .nan => utf8 "nan"
  | .posInf => utf8 "inf"
  | .negInf => utf8 "-inf"
  | .fin q =>
    let h := roundHalfEven (|q| * 100)
    (if q < 0 then utf8 "-" else []) ++ (Nat.toDigits 10 (h / 100)).map Char.toNat ++
      utf8 "." ++ [48 + h % 100 / 10, 48 + h % 10]

/-- The call `snprintf(buf + strlen(buf), size - strlen(buf), ...)` on an array
of `size` bytes that holds the string `buf`: the formatted `text` is appended,
cut off so that the string and its terminator fit in the array. -/
def snprintfAppend (size : Nat) (buf text : List Nat) : List Nat :=
  buf ++ text.take (size - buf.length - 1)

/-- The bytes of a line of the alert: the text of its format string with the
value printed by `%.2f`. -/
def AlertLine.text : AlertLine → List Nat
  | .light v => utf8 "🔆 Alta luz: " ++ printf2f v ++ utf8 " lx\n"
  | .temperature v => utf8 "🌡 Alta temperatura: " ++ printf2f v ++ utf8 " °C\n"
  | .humidity v => utf8 "💧 Alta humedad: " ++ printf2f v ++ utf8 " %\n"

/-- The string in the array `char alert[256]` of `verifyThresholdsAndNotify`
after its three tests, byte by byte. -/
def alertText (s : State) : List Nat :=
  let alert : List Nat := []
  let alert :=
    if CFloat.lt THRESHOLD_LIGHT s.sensors.light then
      snprintfAppend 256 alert (AlertLine.text (.light s.sensors.light)) else alert
  let alert :=
    if CFloat.lt THRESHOLD_TEMP s.sensors.temperature then
      snprintfAppend 256 alert (AlertLine.text (.temperature s.sensors.temperature))
    else alert
  let alert :=
    if CFloat.lt THRESHOLD_HUM s.sensors.humidity then
      snprintfAppend 256 alert (AlertLine.text (.humidity s.sensors.humidity)) else alert
  alert

/-- The string in the array `char message[300]` that `verifyThresholdsAndNotify`
hands to `bot.sendMessage`, when it sends one: the header and the alert. -/
def messageText (s : State) : Option (List Nat) :=
  let alert := alertText s
  if alert ≠ [] then
    some (snprintfAppend 300 [] (utf8 "🚨 *Alerta de sensores:*\n\n" ++ alert))
  else none

/-- Calls of two passes of `loop` that leave the light channel silent: the light
reading 100 arrives at clock 1000 and is followed by the threshold evaluation and
the timeout checks of that pass; the next pass receives nothing and runs its
timeout checks at clock 30000. -/
def lightSilence : List Event :=
  [.update 1000 ⟨3, .fin 100⟩, .verify, .checkAll 1001 1001 1001,
   .verify, .checkAll 30000 30000 30000]

/-! ## Comparison lemmas -/

theorem CFloat.lt_eq_false_of_le {a b : CFloat} (h : CFloat.le a b = true) :
    CFloat.lt b a = false := by
  cases a <;> cases b <;> simp_all [CFloat.le, CFloat.lt]

theorem floor_toNat_cast (q : ℚ) (h0 : 0 ≤ q) : ((⌊q⌋.toNat : ℕ) : ℚ) = (⌊q⌋ : ℚ) := by
  have : ((⌊q⌋.toNat : ℕ) : ℤ) = ⌊q⌋ := Int.toNat_of_nonneg (Int.floor_nonneg.mpr h0)
  exact_mod_cast this

theorem roundHalfEven_cases (q : ℚ) :
    roundHalfEven q = ⌊q⌋.toNat ∨ roundHalfEven q = ⌊q⌋.toNat + 1 := by
  unfold roundHalfEven
  simp only []
  split_ifs <;> simp

theorem roundHalfEven_le (q : ℚ) (n : Nat) (h0 : 0 ≤ q) (hn : q ≤ n) : roundHalfEven q ≤ n := by
  have hfc := floor_toNat_cast q h0
  have hfl : (⌊q⌋ : ℚ) ≤ q := Int.floor_le q
  have hle : ((⌊q⌋.toNat : ℕ) : ℚ) ≤ n := by rw [hfc]; linarith
  have hle' : ⌊q⌋.toNat ≤ n := by exact_mod_cast hle
  have hstep : (1 : ℚ) / 2 ≤ q - (⌊q⌋.toNat : ℕ) → ⌊q⌋.toNat + 1 ≤ n := by
    intro hh
    have : ((⌊q⌋.toNat : ℕ) : ℚ) < n := by linarith
    have : ⌊q⌋.toNat < n := by exact_mod_cast this
    omega
  unfold roundHalfEven
  simp only []
  split_ifs with h1 h2 h3
  · exact hle'
  · exact hstep (le_of_lt h2)
  · exact hle'
  · exact hstep (not_lt.mp h1)

theorem le_roundHalfEven (q : ℚ) (n : Nat) (hn : (n : ℚ) ≤ q) : n ≤ roundHalfEven q := by
  have h0 : 0 ≤ q := le_trans (Nat.cast_nonneg n) hn
  have hf : (n : ℤ) ≤ ⌊q⌋ := Int.le_floor.mpr (by exact_mod_cast hn)
  have hf' : n ≤ ⌊q⌋.toNat := by omega
  rcases roundHalfEven_cases q with h | h <;> omega

/-- At or below a half-way point above an even number, rounding stays at or below it. -/
theorem roundHalfEven_le_of_le_half (q : ℚ) (k : Nat) (h0 : 0 ≤ q) (hk : k % 2 = 0)
    (hq : q ≤ k + 1 / 2) : roundHalfEven q ≤ k := by
  have hfc := floor_toNat_cast q h0
  have hfl : (⌊q⌋ : ℚ) ≤ q := Int.floor_le q
  have hlt : ((⌊q⌋.toNat : ℕ) : ℚ) < k + 1 := by rw [hfc]; linarith
  have hlt' : ⌊q⌋.toNat < k + 1 := by exact_mod_cast hlt
  by_cases hfk : ⌊q⌋.toNat = k
  · unfold roundHalfEven
    simp only []
    rw [hfk]
    split_ifs with h1 h2
    · exact le_rfl
    · linarith
    · exact le_rfl
  · rcases roundHalfEven_cases q with h | h <;> omega

theorem lt_roundHalfEven_of_half_lt (q : ℚ) (k : Nat) (hq : (k : ℚ) + 1 / 2 < q) :
    k + 1 ≤ roundHalfEven q := by
  have h0 : 0 ≤ q := by
    have : (0 : ℚ) ≤ k := Nat.cast_nonneg k
    linarith
  have hfc := floor_toNat_cast q h0
  have hf : (k : ℤ) ≤ ⌊q⌋ := Int.le_floor.mpr (by push_cast; linarith)
  have hf' : k ≤ ⌊q⌋.toNat := by omega
  by_cases hfk : ⌊q⌋.toNat = k
  · unfold roundHalfEven
    simp only []
    rw [hfk]
    split_ifs with h1 h2 h3
    · linarith
    · exact le_rfl
    · linarith
    · exact le_rfl
  · rcases roundHalfEven_cases q with h | h <;> omega

theorem binadeExp_eq (a : ℚ) (e : ℤ) (he : -126 ≤ e) (hlo : (2 : ℚ) ^ e ≤ a)
    (hhi : a < (2 : ℚ) ^ (e + 1)) : binadeExp a = e := by
  have ha : 0 < a := lt_of_lt_of_le (by positivity) hlo
  have h1 : e ≤ Int.log 2 a := (Int.zpow_le_iff_le_log (by decide) ha).mp (by exact_mod_cast hlo)
  have h2 : Int.log 2 a < e + 1 := (Int.lt_zpow_iff_log_lt (by decide) ha).mp (by exact_mod_cast hhi)
  unfold binadeExp
  omega

theorem binadeExp_le (a : ℚ) (e : ℤ) (he : -126 ≤ e) (ha : 0 < a)
    (hhi : a < (2 : ℚ) ^ (e + 1)) : binadeExp a ≤ e ∧ a < (2 : ℚ) ^ (binadeExp a + 1) := by
  have h2 : Int.log 2 a < e + 1 := (Int.lt_zpow_iff_log_lt (by decide) ha).mp (by exact_mod_cast hhi)
  have h3 : a < (2 : ℚ) ^ (Int.log 2 a + 1) := by
    exact_mod_cast Int.lt_zpow_succ_log_self (by decide : 1 < 2) a
  refine ⟨by unfold binadeExp; omega, lt_of_lt_of_le h3 ?_⟩
  apply zpow_le_zpow_right₀ (by norm_num)
  unfold binadeExp
  omega

theorem binadeExp_ge (a : ℚ) (e : ℤ) (he : -126 ≤ e) (hlo : (2 : ℚ) ^ e ≤ a) :
    e ≤ binadeExp a ∧ (2 : ℚ) ^ binadeExp a ≤ a := by
  have ha : 0 < a := lt_of_lt_of_le (by positivity) hlo
  have h1 : e ≤ Int.log 2 a := (Int.zpow_le_iff_le_log (by decide) ha).mp (by exact_mod_cast hlo)
  have h3 : (2 : ℚ) ^ Int.log 2 a ≤ a := by
    exact_mod_cast Int.zpow_log_le_self (by decide : 1 < 2) ha
  have hb : binadeExp a = Int.log 2 a := by unfold binadeExp; omega
  rw [hb]
  exact ⟨h1, h3⟩

theorem roundHalfEven_zero : roundHalfEven 0 = 0 :=
  Nat.le_zero.mp (roundHalfEven_le 0 0 le_rfl (by simp))

theorem two_zpow_split (e : ℤ) (k : ℕ) :
    (2 : ℚ) ^ (e - 23 + k) = (2 : ℚ) ^ (e - 23) * ((2 ^ k : ℕ) : ℚ) := by
  rw [zpow_add₀ (by norm_num : (2 : ℚ) ≠ 0)]
  push_cast
  rw [zpow_natCast]

/-- The binary32 rounding of a magnitude is below 0.1 exactly when the magnitude
is at most the half-way point between 0.1f and the binary32 number below it. -/
theorem roundMag32_lt_tenth_iff (x : ℚ) (hx : 0 ≤ x) :
    roundMag32 x < 1 / 10 ↔ x ≤ 26843545 / 268435456 := by
  rcases eq_or_lt_of_le hx with h0 | hpos
  · subst h0
    simp only [roundMag32, zero_div, roundHalfEven_zero, Nat.cast_zero, zero_mul]
    norm_num
  by_cases h16 : x < 1 / 16
  · -- below the binade of 0.1
    obtain ⟨he, hlt⟩ := binadeExp_le x (-5) (by decide) hpos (by norm_num; linarith)
    have hu : (0 : ℚ) < (2 : ℚ) ^ (binadeExp x - 23) := by positivity
    have hsplit := two_zpow_split (binadeExp x) 24
    have hq : x / (2 : ℚ) ^ (binadeExp x - 23) ≤ ((2 ^ 24 : ℕ) : ℚ) := by
      rw [div_le_iff₀ hu, mul_comm, ← hsplit]
      have : binadeExp x - 23 + ((24 : ℕ) : ℤ) = binadeExp x + 1 := by push_cast; ring
      rw [this]
      exact le_of_lt hlt
    have hn := roundHalfEven_le _ _ (div_nonneg hx (le_of_lt hu)) hq
    have hr : roundMag32 x ≤ (2 : ℚ) ^ (-4 : ℤ) := by
      unfold roundMag32
      calc (roundHalfEven (x / 2 ^ (binadeExp x - 23)) : ℚ) * 2 ^ (binadeExp x - 23)
          ≤ ((2 ^ 24 : ℕ) : ℚ) * 2 ^ (binadeExp x - 23) := by
            apply mul_le_mul_of_nonneg_right _ (le_of_lt hu)
            exact_mod_cast hn
        _ = (2 : ℚ) ^ (binadeExp x + 1) := by
            rw [mul_comm, ← hsplit]
            congr 1
            push_cast
            ring
        _ ≤ (2 : ℚ) ^ (-4 : ℤ) := zpow_le_zpow_right₀ (by norm_num) (by omega)
    have h4 : (2 : ℚ) ^ (-4 : ℤ) = 1 / 16 := by norm_num
    rw [h4] at hr
    constructor
    · intro _
      linarith
    · intro _
      linarith
  · push_neg at h16
    by_cases h8 : x < 1 / 8
    · -- the binade of 0.1
      have he := binadeExp_eq x (-4) (by decide) (by norm_num; linarith) (by norm_num; linarith)
      unfold roundMag32
      rw [he]
      have hp : (2 : ℚ) ^ ((-4 : ℤ) - 23) = 1 / 134217728 := by norm_num
      rw [hp]
      constructor
      · intro hr
        by_contra hM
        push_neg at hM
        have hn := lt_roundHalfEven_of_half_lt (x / (1 / 134217728)) 13421772
          (by rw [div_div_eq_mul_div, div_one]; push_cast; linarith)
        have : ((13421773 : ℕ) : ℚ) ≤ (roundHalfEven (x / (1 / 134217728)) : ℚ) := by
          exact_mod_cast hn
        push_cast at this
        linarith
      · intro hM
        have hn := roundHalfEven_le_of_le_half (x / (1 / 134217728)) 13421772
          (by positivity) (by decide)
          (by rw [div_div_eq_mul_div, div_one]; push_cast; linarith)
        have : (roundHalfEven (x / (1 / 134217728)) : ℚ) ≤ ((13421772 : ℕ) : ℚ) := by
          exact_mod_cast hn
        push_cast at this
        linarith
    · -- above the binade of 0.1
      push_neg at h8
      obtain ⟨he, hle⟩ := binadeExp_ge x (-3) (by decide) (by norm_num; linarith)
      have hu : (0 : ℚ) < (2 : ℚ) ^ (binadeExp x - 23) := by positivity
      have hsplit := two_zpow_split (binadeExp x) 23
      have h23 : binadeExp x - 23 + ((23 : ℕ) : ℤ) = binadeExp x := by push_cast; ring
      rw [h23] at hsplit
      have hq : ((2 ^ 23 : ℕ) : ℚ) ≤ x / (2 : ℚ) ^ (binadeExp x - 23) := by
        rw [le_div_iff₀ hu, mul_comm, ← hsplit]
        exact hle
      have hn := le_roundHalfEven _ _ hq
      have hr : (2 : ℚ) ^ (-3 : ℤ) ≤ roundMag32 x := by
        unfold roundMag32
        calc (2 : ℚ) ^ (-3 : ℤ) ≤ (2 : ℚ) ^ binadeExp x :=
              zpow_le_zpow_right₀ (by norm_num) he
          _ = ((2 ^ 23 : ℕ) : ℚ) * 2 ^ (binadeExp x - 23) := by rw [mul_comm, ← hsplit]
          _ ≤ (roundHalfEven (x / 2 ^ (binadeExp x - 23)) : ℚ) * 2 ^ (binadeExp x - 23) := by
              apply mul_le_mul_of_nonneg_right _ (le_of_lt hu)
              exact_mod_cast hn
      have h3 : (2 : ℚ) ^ (-3 : ℤ) = 1 / 8 := by norm_num
      rw [h3] at hr
      constructor
      · intro h
        linarith
      · intro h
        linarith

theorem CFloat.lt_fin (a b : ℚ) : CFloat.lt (.fin a) (.fin b) = decide (a < b) := rfl

theorem CFloat.le_fin (a b : ℚ) : CFloat.le (.fin a) (.fin b) = decide (a ≤ b) := rfl

theorem roundMag32_nonneg (a : ℚ) : 0 ≤ roundMag32 a := by
  unfold roundMag32
  positivity

/-- The test `fabs(a - b) < 0.1` of the sketch on two finite values, in terms of
their exact difference: it holds exactly when the difference is at most
26843545 / 2^28 (about 0.0999999978), the half-way point between `0.1f` and the
binary32 number below it. -/
theorem CFloat.near_fin (a b : ℚ) :
    CFloat.lt (CFloat.fabs (CFloat.sub (.fin a) (.fin b))) (.fin (1 / 10)) =
      decide (|a - b| ≤ 26843545 / 268435456) := by
  have hiff := roundMag32_lt_tenth_iff |a - b| (abs_nonneg _)
  have hnn := roundMag32_nonneg |a - b|
  simp only [CFloat.sub, round32]
  by_cases hov : (2 : ℚ) ^ (128 : ℤ) ≤ roundMag32 |a - b|
  · have hbig : ¬ roundMag32 |a - b| < 1 / 10 := by
      have : (1 : ℚ) ≤ (2 : ℚ) ^ (128 : ℤ) := by norm_num
      intro h
      linarith
    have hM : ¬ |a - b| ≤ 26843545 / 268435456 := fun h => hbig (hiff.mpr h)
    rw [if_pos hov, decide_eq_false hM]
    by_cases hneg : a - b < 0 <;> simp [hneg, CFloat.fabs, CFloat.lt]
  · rw [if_neg hov]
    have hab : abs (if a - b < 0 then -roundMag32 (abs (a - b)) else roundMag32 (abs (a - b))) =
        roundMag32 (abs (a - b)) := by
      by_cases hneg : a - b < 0
      · rw [if_pos hneg, abs_neg, abs_of_nonneg hnn]
      · rw [if_neg hneg, abs_of_nonneg hnn]
    simp only [CFloat.fabs, CFloat.lt, hab]
    exact decide_eq_decide.mpr hiff

theorem CFloat.near_fin_inv (a b : ℚ) :
    CFloat.lt (CFloat.fabs (CFloat.sub (.fin a) (.fin b))) (.fin 10⁻¹) =
      decide (|a - b| ≤ 26843545 / 268435456) := by
  rw [← CFloat.near_fin a b]
  norm_num

/-- Two values whose exact difference is at least 0.1 fail the near-duplicate
test of the sketch. -/
theorem CFloat.not_near_of_far {v w : CFloat}
    (h : CFloat.le (.fin (1 / 10)) (CFloat.fabs (CFloat.exactSub v w)) = true) :
    CFloat.lt (CFloat.fabs (CFloat.sub v w)) (.fin (1 / 10)) = false := by
  cases v <;> cases w <;>
    first
    | (simp only [CFloat.exactSub, CFloat.fabs, CFloat.le, decide_eq_true_eq] at h
       rw [CFloat.near_fin, decide_eq_false_iff_not]
       intro hc
       linarith)
    | simp_all [CFloat.exactSub, CFloat.sub, CFloat.fabs, CFloat.le, CFloat.lt]

/-- Two values whose exact difference is at most 26843545 / 2^28 pass the
near-duplicate test of the sketch. -/
theorem CFloat.near_of_close {v w : CFloat}
    (h : CFloat.le (CFloat.fabs (CFloat.exactSub v w)) (.fin (26843545 / 268435456)) = true) :
    CFloat.lt (CFloat.fabs (CFloat.sub v w)) (.fin (1 / 10)) = true := by
  cases v <;> cases w <;>
    first
    | (simp only [CFloat.exactSub, CFloat.fabs, CFloat.le, decide_eq_true_eq] at h
       rw [CFloat.near_fin, decide_eq_true_eq]
       exact h)
    | simp_all [CFloat.exactSub, CFloat.sub, CFloat.fabs, CFloat.le, CFloat.lt]

/-! ## The state store: `updateSensorValue` -/

/-- The path of `updateSensorValue` that stores the reading: the value is not
rejected by the range test and the near-duplicate test of its channel fails. -/
theorem updateSensorValue_of_not_near (now : Nat) (received : SensorData) (s : State)
    (c : Channel) (hid : received.id = c.id)
    (hlo : CFloat.lt received.data (.fin 0) = false)
    (hhi : CFloat.lt (.fin 1000) received.data = false)
    (hfar : CFloat.lt (CFloat.fabs (CFloat.sub received.data (s.value c)))
      (.fin (1 / 10)) = false) :
    ((updateSensorValue now received s).1.value c = received.data ∧
      (updateSensorValue now received s).1.lastUpdate c = now ∧
      (updateSensorValue now received s).1.alertSent c = false) ∧
    updateApplied c (updateSensorValue now received s).2 = true := by
  cases c <;>
    simp_all [updateSensorValue, Channel.id, State.value, State.lastUpdate,
      State.alertSent, updatedLog, updateApplied]

/-- The near-duplicate path of `updateSensorValue`: nothing is written and
nothing is printed. -/
theorem updateSensorValue_of_near (now : Nat) (received : SensorData) (s : State)
    (c : Channel) (hid : received.id = c.id)
    (hnear : CFloat.lt (CFloat.fabs (CFloat.sub received.data (s.value c)))
      (.fin (1 / 10)) = true) :
    (updateSensorValue now received s).1 = s ∧
    updateApplied c (updateSensorValue now received s).2 = false := by
  cases c <;>
    by_cases hr : (CFloat.lt received.data (.fin 0) ||
      CFloat.lt (.fin 1000) received.data) = true <;>
    simp_all [updateSensorValue, Channel.id, State.value, updateApplied]

/-- C1: a reading for channel 1, 2 or 3 whose value lies in [0,1000] and differs
from the stored value of its channel by at least 0.1 is applied: afterwards the
stored value of the channel is the value of the reading, its last-update time is
the clock reading `now`, and its timeout-alert flag is false. -/
theorem updateSensorValue_applies (now : Nat) (received : SensorData) (s : State)
    (c : Channel) (hid : received.id = c.id)
    (hlo : CFloat.le (.fin 0) received.data = true)
    (hhi : CFloat.le received.data (.fin 1000) = true)
    (hdiff : CFloat.le (.fin (1 / 10))
      (CFloat.fabs (CFloat.exactSub received.data (s.value c))) = true) :
    (updateSensorValue now received s).1.value c = received.data ∧
    (updateSensorValue now received s).1.lastUpdate c = now ∧
    (updateSensorValue now received s).1.alertSent c = false :=
  (updateSensorValue_of_not_near now received s c hid (CFloat.lt_eq_false_of_le hlo)
    (CFloat.lt_eq_false_of_le hhi) (CFloat.not_near_of_far hdiff)).1

/-- Witness of C1: temperature 25.0 sent to the initial state at clock 1000. -/
theorem updateSensorValue_applies_witness :
    (updateSensorValue 1000 ⟨2, .fin 25⟩ State.initial).1.value .temperature = .fin 25 ∧
    (updateSensorValue 1000 ⟨2, .fin 25⟩ State.initial).1.lastUpdate .temperature = 1000 ∧
    (updateSensorValue 1000 ⟨2, .fin 25⟩ State.initial).1.alertSent .temperature = false :=
  updateSensorValue_applies 1000 ⟨2, .fin 25⟩ State.initial .temperature rfl
    (by simp [CFloat.le]) (by norm_num [CFloat.le])
    (by norm_num [CFloat.le, CFloat.fabs, CFloat.exactSub, State.value, State.initial])

/-- The globals after the temperature reading 25.0 has been applied to the
initial state at clock 1000. -/
theorem temperature_stored_state :
    (updateSensorValue 1000 ⟨2, .fin 25⟩ State.initial).1 =
      { sensors := { temperature := .fin 25 }, lastTemperatureUpdate := 1000 } := by
  norm_num [updateSensorValue, State.initial, CFloat.lt_fin, CFloat.near_fin,
    CFloat.near_fin_inv, abs_of_pos]

/-- The `float`s 0.11f (bit pattern `3DE147AE`) and 0.01f (bit pattern
`3C23D70A`). -/
theorem floatOfBits_counterexample_values :
    floatOfBits 1038174126 = .fin (7381975 / 67108864) ∧
    floatOfBits 1008981770 = .fin (5368709 / 536870912) := by
  constructor <;> norm_num [floatOfBits]

/-- The globals after the humidity reading 0.11f has been applied to the initial
state at clock 1000. -/
theorem humidity_stored_state :
    (updateSensorValue 1000 ⟨1, .fin (7381975 / 67108864)⟩ State.initial).1 =
      { sensors := { humidity := .fin (7381975 / 67108864) }, lastHumidityUpdate := 1000 } := by
  norm_num [updateSensorValue, State.initial, CFloat.lt_fin, CFloat.near_fin,
    CFloat.near_fin_inv, abs_of_pos]

/-- The binary32 subtraction 0.01f - 0.11f: the exact difference -53687091 / 2^29
lies in the binade of exponent -4, where binary32 numbers are the multiples of
`2^(-27)`; it is 13421772.75 such multiples and rounds to 13421773 of them,
which is -0.1f (bit pattern `3DCCCCCD` without the sign). -/
theorem sub_counterexample_value :
    CFloat.sub (.fin (5368709 / 536870912)) (.fin (7381975 / 67108864)) =
      .fin (-(13421773 / 134217728)) ∧
    floatOfBits 1036831949 = .fin (13421773 / 134217728) := by
  have hq : (5368709 / 536870912 : ℚ) - 7381975 / 67108864 = -(53687091 / 536870912) := by
    norm_num
  have habs : |(-(53687091 / 536870912) : ℚ)| = 53687091 / 536870912 := by
    rw [abs_neg, abs_of_pos (by norm_num)]
  have he : binadeExp (53687091 / 536870912) = -4 :=
    binadeExp_eq _ (-4) (by decide) (by norm_num) (by norm_num)
  have hp : (2 : ℚ) ^ ((-4 : ℤ) - 23) = 1 / 134217728 := by norm_num
  have hn : roundHalfEven ((53687091 / 536870912 : ℚ) / (1 / 134217728)) = 13421773 := by
    apply le_antisymm
    · exact roundHalfEven_le _ 13421773 (by norm_num) (by norm_num)
    · exact lt_roundHalfEven_of_half_lt _ 13421772 (by norm_num)
  have hm : roundMag32 (53687091 / 536870912) = 13421773 / 134217728 := by
    unfold roundMag32
    rw [he, hp, hn]
    norm_num
  refine ⟨?_, by norm_num [floatOfBits]⟩
  simp only [CFloat.sub, round32, hq, habs, hm]
  norm_num

/-- Counterexample to C2: humidity 0.11f (bit pattern `3DE147AE`) is stored,
applied to the initial state at clock 1000, and the humidity reading 0.01f (bit
pattern `3C23D70A`) arrives at clock 2000.  The two values differ by
0.0999999996, less than 0.1, but the binary32 subtraction of the sketch rounds
the difference to -0.1f (0.1f has the bit pattern `3DCCCCCD`), whose absolute
value is not below 0.1: the reading is stored and the last-update time moves to
2000. -/
theorem near_duplicate_rounding_counterexample :
    floatOfBits 1038174126 = .fin (7381975 / 67108864) ∧
    floatOfBits 1008981770 = .fin (5368709 / 536870912) ∧
    (updateSensorValue 1000 ⟨1, .fin (7381975 / 67108864)⟩ State.initial).1.value
      .humidity = .fin (7381975 / 67108864) ∧
    CFloat.lt (CFloat.fabs (CFloat.exactSub (.fin (5368709 / 536870912))
      ((updateSensorValue 1000 ⟨1, .fin (7381975 / 67108864)⟩ State.initial).1.value
        .humidity))) (.fin (1 / 10)) = true ∧
    CFloat.sub (.fin (5368709 / 536870912)) (.fin (7381975 / 67108864)) =
      .fin (-(13421773 / 134217728)) ∧
    floatOfBits 1036831949 = .fin (13421773 / 134217728) ∧
    (updateSensorValue 2000 ⟨1, .fin (5368709 / 536870912)⟩
      (updateSensorValue 1000 ⟨1, .fin (7381975 / 67108864)⟩
        State.initial).1).1.sensors.humidity = .fin (5368709 / 536870912) ∧
    (updateSensorValue 2000 ⟨1, .fin (5368709 / 536870912)⟩
      (updateSensorValue 1000 ⟨1, .fin (7381975 / 67108864)⟩
        State.initial).1).1.lastHumidityUpdate = 2000 := by
  rw [humidity_stored_state]
  refine ⟨floatOfBits_counterexample_values.1, floatOfBits_counterexample_values.2, rfl,
    ?_, sub_counterexample_value.1, sub_counterexample_value.2, ?_, ?_⟩
  · norm_num [State.value, CFloat.exactSub, CFloat.fabs, CFloat.lt_fin, abs_lt]
  · norm_num [updateSensorValue, CFloat.lt_fin, CFloat.near_fin, CFloat.near_fin_inv,
      abs_le]
  · norm_num [updateSensorValue, CFloat.lt_fin, CFloat.near_fin, CFloat.near_fin_inv,
      abs_le]

/-- C2 (amended): a reading whose value differs from the stored value of its
channel by at most 26843545 / 2^28 (about 0.0999999978; these are the
differences that the binary32 subtraction of the sketch rounds to a value below
0.1) leaves the whole state unchanged: no stored value, no last-update time and
no timeout-alert flag changes. -/
theorem updateSensorValue_near_duplicate (now : Nat) (received : SensorData) (s : State)
    (c : Channel) (hid : received.id = c.id)
    (hnear : CFloat.le (CFloat.fabs (CFloat.exactSub received.data (s.value c)))
      (.fin (26843545 / 268435456)) = true) :
    (updateSensorValue now received s).1 = s :=
  (updateSensorValue_of_near now received s c hid (CFloat.near_of_close hnear)).1

/-- Witness of C2 (amended): after temperature 25.0 has been applied at clock
1000, the reading 25.05 for temperature at clock 2000 changes nothing. -/
theorem updateSensorValue_near_duplicate_witness :
    (updateSensorValue 1000 ⟨2, .fin 25⟩ State.initial).1.sensors.temperature = .fin 25 ∧
    (updateSensorValue 2000 ⟨2, .fin (501 / 20)⟩
      (updateSensorValue 1000 ⟨2, .fin 25⟩ State.initial).1).1 =
    (updateSensorValue 1000 ⟨2, .fin 25⟩ State.initial).1 :=
  ⟨by rw [temperature_stored_state],
    updateSensorValue_near_duplicate 2000 ⟨2, .fin (501 / 20)⟩
      (updateSensorValue 1000 ⟨2, .fin 25⟩ State.initial).1 .temperature rfl
      (by rw [temperature_stored_state]
          norm_num [CFloat.exactSub, CFloat.fabs, CFloat.le_fin, State.value, abs_of_pos])⟩

/-- C3: a reading with value below 0 or above 1000 leaves the whole state
unchanged, whatever its channel id; only the out-of-range line is printed. -/
theorem updateSensorValue_out_of_range (now : Nat) (received : SensorData) (s : State)
    (hrange : CFloat.lt received.data (.fin 0) = true ∨
      CFloat.lt (.fin 1000) received.data = true) :
    (updateSensorValue now received s).1 = s ∧
    (updateSensorValue now received s).2 = [.serial .outOfRange] := by
  rcases hrange with h | h <;> simp [updateSensorValue, h]

/-- Witness of C3: the value 1000.5 for humidity. -/
theorem updateSensorValue_out_of_range_witness :
    (updateSensorValue 7 ⟨1, .fin (2001 / 2)⟩ State.initial).1 = State.initial ∧
    (updateSensorValue 7 ⟨1, .fin (2001 / 2)⟩ State.initial).2 = [.serial .outOfRange] :=
  updateSensorValue_out_of_range 7 ⟨1, .fin (2001 / 2)⟩ State.initial
    (Or.inr (by norm_num [CFloat.lt]))

/-- C4: a reading whose channel id is not 1, 2 or 3 is rejected whatever its
value: the whole state is unchanged, and the only effect is the out-of-range
line (value outside [0,1000]) or the unknown-id line. -/
theorem updateSensorValue_unknown_channel (now : Nat) (received : SensorData) (s : State)
    (h1 : received.id ≠ 1) (h2 : received.id ≠ 2) (h3 : received.id ≠ 3) :
    (updateSensorValue now received s).1 = s ∧
    ((updateSensorValue now received s).2 = [.serial .outOfRange] ∨
      (updateSensorValue now received s).2 = [.serial .unknownId]) := by
  unfold updateSensorValue
  split
  · exact ⟨rfl, Or.inl rfl⟩
  · split
    · exact absurd (by assumption) h1
    · exact absurd (by assumption) h2
    · exact absurd (by assumption) h3
    · exact ⟨rfl, Or.inr rfl⟩

/-- Witness of C4: channel id 4 with the in-range value 50. -/
theorem updateSensorValue_unknown_channel_witness :
    (updateSensorValue 7 ⟨4, .fin 50⟩ State.initial).1 = State.initial ∧
    ((updateSensorValue 7 ⟨4, .fin 50⟩ State.initial).2 = [.serial .outOfRange] ∨
      (updateSensorValue 7 ⟨4, .fin 50⟩ State.initial).2 = [.serial .unknownId]) :=
  updateSensorValue_unknown_channel 7 ⟨4, .fin 50⟩ State.initial
    (by decide) (by decide) (by decide)

/-! ## The timeout detector: `checkTimeout` -/

theorem ulongSub_eq_sub {now lastUpdate : Nat} (hle : lastUpdate ≤ now)
    (hnow : now < ULONG_RANGE) : ulongSub now lastUpdate = now - lastUpdate := by
  unfold ulongSub ULONG_RANGE at *
  omega

theorem checkTimeout_fires {now lastUpdate : Nat} {sensorName : String}
    (h : SENSOR_TIMEOUT_MS < ulongSub now lastUpdate) :
    checkTimeout now lastUpdate false sensorName =
      (true, [.sendMessage (.timeout sensorName), .serial (.inactive sensorName)]) := by
  simp [checkTimeout, h]

theorem checkTimeout_quiet {now lastUpdate : Nat} {alertSent : Bool} {sensorName : String}
    (h : ulongSub now lastUpdate ≤ SENSOR_TIMEOUT_MS ∨ alertSent = true) :
    checkTimeout now lastUpdate alertSent sensorName = (alertSent, []) := by
  rcases h with h | h
  · simp [checkTimeout, Nat.not_lt.mpr h]
  · simp [checkTimeout, h]

theorem checkTimeoutOf_fires (c : Channel) (now : Nat) (s : State)
    (h : SENSOR_TIMEOUT_MS < ulongSub now (s.lastUpdate c)) (hflag : s.alertSent c = false) :
    (checkTimeoutOf c now s).2 =
      [.sendMessage (.timeout c.sensorName), .serial (.inactive c.sensorName)] ∧
    (checkTimeoutOf c now s).1.alertSent c = true ∧
    (checkTimeoutOf c now s).1.lastUpdate c = s.lastUpdate c := by
  cases c <;> simp_all [checkTimeoutOf, State.lastUpdate, State.alertSent,
    Channel.sensorName, checkTimeout_fires]

theorem checkTimeoutOf_quiet {c : Channel} {now : Nat} {s : State}
    (h : ulongSub now (s.lastUpdate c) ≤ SENSOR_TIMEOUT_MS ∨ s.alertSent c = true) :
    checkTimeoutOf c now s = (s, []) := by
  cases c <;> simp only [State.lastUpdate, State.alertSent] at h <;>
    simp [checkTimeoutOf, checkTimeout_quiet h]

theorem checkTimeoutOf_quiet_of_not {c : Channel} {now : Nat} {s : State}
    (h : ¬(SENSOR_TIMEOUT_MS < ulongSub now (s.lastUpdate c) ∧ s.alertSent c = false)) :
    checkTimeoutOf c now s = (s, []) := by
  apply checkTimeoutOf_quiet
  by_cases hf : s.alertSent c = true
  · exact Or.inr hf
  · left
    simp only [Bool.not_eq_true] at hf
    simp only [hf, and_true, not_lt] at h
    exact h

/-- C5: the timeout check of a channel emits a notification exactly when the
elapsed time `now - lastUpdateTime` is above 20000 ms and the flag of the channel
is false.  When it emits, it emits exactly one notification, naming that channel,
and sets the flag; otherwise (elapsed time at most 20000, exactly 20000 included,
or flag already set) it has no effect at all and the state, the flag included,
is unchanged.  The elapsed time is the `unsigned long` difference, which is the
plain difference as long as the clock has not wrapped since the last update. -/
theorem checkTimeout_emits_iff (c : Channel) (now : Nat) (s : State) :
    (sent (checkTimeoutOf c now s).2 ≠ [] ↔
      (20000 < ulongSub now (s.lastUpdate c) ∧ s.alertSent c = false)) ∧
    (sent (checkTimeoutOf c now s).2 ≠ [] →
      sent (checkTimeoutOf c now s).2 = [.timeout c.sensorName] ∧
      (checkTimeoutOf c now s).1.alertSent c = true) ∧
    (sent (checkTimeoutOf c now s).2 = [] →
      (checkTimeoutOf c now s).2 = [] ∧ (checkTimeoutOf c now s).1 = s) ∧
    (s.lastUpdate c ≤ now → now < 4294967296 →
      ulongSub now (s.lastUpdate c) = now - s.lastUpdate c) := by
  have hplain : s.lastUpdate c ≤ now → now < 4294967296 →
      ulongSub now (s.lastUpdate c) = now - s.lastUpdate c :=
    fun hle hnow => ulongSub_eq_sub hle hnow
  by_cases h : 20000 < ulongSub now (s.lastUpdate c) ∧ s.alertSent c = false
  · obtain ⟨he, hs, _⟩ := checkTimeoutOf_fires c now s h.1 h.2
    refine ⟨?_, ?_, ?_, hplain⟩ <;> simp [he, hs, sent, h]
  · have hq : checkTimeoutOf c now s = (s, []) := checkTimeoutOf_quiet_of_not h
    refine ⟨?_, ?_, ?_, hplain⟩ <;> simp [hq, sent, h]

/-! ## Effects of the single calls, seen from one channel -/

theorem sent_append (a b : List Effect) : sent (a ++ b) = sent a ++ sent b := by
  induction a with
  | nil => rfl
  | cons e es ih => cases e <;> simp [sent, ih]

theorem timeoutAlerts_append (c : Channel) (a b : List Effect) :
    timeoutAlerts c (a ++ b) = timeoutAlerts c a + timeoutAlerts c b := by
  simp [timeoutAlerts, sent_append]

theorem updateApplied_append (c : Channel) (a b : List Effect) :
    updateApplied c (a ++ b) = (updateApplied c a || updateApplied c b) := by
  induction a with
  | nil => rfl
  | cons e es ih =>
    cases e with
    | sendMessage m => simp [updateApplied, ih]
    | serial l => cases l <;> simp [updateApplied, ih, Bool.or_assoc]

theorem timeoutAlerts_nil (c : Channel) : timeoutAlerts c [] = 0 := rfl

theorem updateApplied_nil (c : Channel) : updateApplied c [] = false := rfl

theorem sensorName_injective {c d : Channel} (h : c.sensorName = d.sensorName) : c = d := by
  cases c <;> cases d <;> first | rfl | exact absurd h (by decide)

/-- A timeout check never prints the update line, never touches a stored value
or a last-update time, and concerns only the flag and the name of its channel. -/
theorem checkTimeoutOf_frame (d c : Channel) (now : Nat) (s : State) :
    (checkTimeoutOf d now s).1.value c = s.value c ∧
    (checkTimeoutOf d now s).1.lastUpdate c = s.lastUpdate c ∧
    updateApplied c (checkTimeoutOf d now s).2 = false ∧
    (d ≠ c → (checkTimeoutOf d now s).1.alertSent c = s.alertSent c ∧
      timeoutAlerts c (checkTimeoutOf d now s).2 = 0) := by
  by_cases h : SENSOR_TIMEOUT_MS < ulongSub now (s.lastUpdate d) ∧ s.alertSent d = false
  · obtain ⟨he, _, _⟩ := checkTimeoutOf_fires d now s h.1 h.2
    rw [he]
    refine ⟨?_, ?_, rfl, ?_⟩
    · cases d <;> cases c <;> rfl
    · cases d <;> cases c <;> rfl
    · intro hdc
      refine ⟨?_, ?_⟩
      · cases d <;> cases c <;> first | rfl | exact absurd rfl hdc
      · have hne : c.sensorName ≠ d.sensorName := fun hn => hdc (sensorName_injective hn).symm
        simp [timeoutAlerts, sent, hne]
  · have hq : checkTimeoutOf d now s = (s, []) :=
      checkTimeoutOf_quiet_of_not h
    simp [hq, timeoutAlerts_nil, updateApplied_nil]

/-- A call of `updateSensorValue` sends no message; when it does not print the
update line for a channel, it leaves the three fields of that channel alone. -/
theorem updateSensorValue_frame (c : Channel) (now : Nat) (received : SensorData) (s : State) :
    sent (updateSensorValue now received s).2 = [] ∧
    (updateApplied c (updateSensorValue now received s).2 = false →
      (updateSensorValue now received s).1.value c = s.value c ∧
      (updateSensorValue now received s).1.lastUpdate c = s.lastUpdate c ∧
      (updateSensorValue now received s).1.alertSent c = s.alertSent c) := by
  unfold updateSensorValue
  split
  · simp [sent]
  · split <;> (try split) <;> cases c <;>
      simp_all [sent, updatedLog, updateApplied, Channel.id, State.value, State.lastUpdate,
        State.alertSent]

/-- A call of `verifyThresholdsAndNotify` changes no global, sends no silence
notification and prints no update line. -/
theorem verifyThresholdsAndNotify_frame (c : Channel) (s : State) :
    (verifyThresholdsAndNotify s).1 = s ∧
    timeoutAlerts c (verifyThresholdsAndNotify s).2 = 0 ∧
    updateApplied c (verifyThresholdsAndNotify s).2 = false := by
  unfold verifyThresholdsAndNotify
  by_cases h : alertBuffer s = [] <;> simp [h, timeoutAlerts, sent, updateApplied]

/-- When `updateSensorValue` prints the update line for a channel, it has stored
the reading for that channel. -/
theorem updateSensorValue_of_applied (c : Channel) (now : Nat) (received : SensorData)
    (s : State) (h : updateApplied c (updateSensorValue now received s).2 = true) :
    (updateSensorValue now received s).1.value c = received.data ∧
    (updateSensorValue now received s).1.lastUpdate c = now ∧
    (updateSensorValue now received s).1.alertSent c = false := by
  unfold updateSensorValue at h ⊢
  split at h
  · simp [updateApplied] at h
  · split at h <;> (try split at h) <;> cases c <;>
      simp_all [updatedLog, updateApplied, Channel.id, State.value, State.lastUpdate,
        State.alertSent]

/-- A timeout check of any channel while the flag of `c` is set: the flag stays
set and no silence notification names `c`. -/
theorem checkTimeoutOf_silent (d c : Channel) (now : Nat) (s : State)
    (h : s.alertSent c = true) :
    (checkTimeoutOf d now s).1.alertSent c = true ∧
    timeoutAlerts c (checkTimeoutOf d now s).2 = 0 := by
  by_cases hdc : d = c
  · subst hdc
    rw [checkTimeoutOf_quiet (Or.inr h)]
    exact ⟨h, rfl⟩
  · obtain ⟨_, _, _, hf⟩ := checkTimeoutOf_frame d c now s
    exact ⟨(hf hdc).1.trans h, (hf hdc).2⟩

/-- A timeout check of any channel while the flag of `c` is clear and, if the
check is the one of `c`, the elapsed time is at most the deadline: the flag
stays clear and no silence notification names `c`. -/
theorem checkTimeoutOf_armed (d c : Channel) (now : Nat) (s : State)
    (h : s.alertSent c = false)
    (hd : d = c → ulongSub now (s.lastUpdate c) ≤ SENSOR_TIMEOUT_MS) :
    (checkTimeoutOf d now s).1.alertSent c = false ∧
    timeoutAlerts c (checkTimeoutOf d now s).2 = 0 := by
  by_cases hdc : d = c
  · subst hdc
    rw [checkTimeoutOf_quiet (Or.inl (hd rfl))]
    exact ⟨h, rfl⟩
  · obtain ⟨_, _, _, hf⟩ := checkTimeoutOf_frame d c now s
    exact ⟨(hf hdc).1.trans h, (hf hdc).2⟩

theorem checkSensorTimeouts_eq_run (nh nt nl : Nat) (s : State) :
    checkSensorTimeouts nh nt nl s =
      run [.check .humidity nh, .check .temperature nt, .check .light nl] s := by
  simp [checkSensorTimeouts, run, step]

theorem run_cons (e : Event) (es : List Event) (s : State) :
    run (e :: es) s = ((run es (step e s).1).1, (step e s).2 ++ (run es (step e s).1).2) :=
  rfl

theorem run_append (es fs : List Event) (s : State) :
    run (es ++ fs) s = ((run fs (run es s).1).1, (run es s).2 ++ (run fs (run es s).1).2) := by
  induction es generalizing s with
  | nil => simp [run]
  | cons e es ih => simp [run, ih, List.append_assoc]

/-- One call while the flag of `c` is set and no update is applied to `c`: the
flag stays set and no silence notification names `c`. -/
theorem step_silent (c : Channel) (e : Event) (s : State) (h : s.alertSent c = true)
    (hno : updateApplied c (step e s).2 = false) :
    (step e s).1.alertSent c = true ∧ timeoutAlerts c (step e s).2 = 0 := by
  cases e with
  | update now received =>
    obtain ⟨hs, hf⟩ := updateSensorValue_frame c now received s
    exact ⟨(hf hno).2.2.trans h, by simp [step, timeoutAlerts, hs]⟩
  | verify =>
    obtain ⟨hs, ht, _⟩ := verifyThresholdsAndNotify_frame c s
    exact ⟨by simp only [step]; rw [hs]; exact h, ht⟩
  | check d now => exact checkTimeoutOf_silent d c now s h
  | checkAll nh nt nl =>
    obtain ⟨h1, a1⟩ := checkTimeoutOf_silent .humidity c nh s h
    obtain ⟨h2, a2⟩ := checkTimeoutOf_silent .temperature c nt _ h1
    obtain ⟨h3, a3⟩ := checkTimeoutOf_silent .light c nl _ h2
    exact ⟨h3, by simp [step, checkSensorTimeouts, timeoutAlerts_append, a1, a2, a3]⟩

/-- Any sequence of calls while the flag of `c` is set and no update is applied
to `c`: the flag stays set and no silence notification names `c`. -/
theorem run_silent (c : Channel) (es : List Event) (s : State) (h : s.alertSent c = true)
    (hno : updateApplied c (run es s).2 = false) :
    (run es s).1.alertSent c = true ∧ timeoutAlerts c (run es s).2 = 0 := by
  induction es generalizing s with
  | nil => exact ⟨h, rfl⟩
  | cons e es ih =>
    simp only [run, updateApplied_append, Bool.or_eq_false_iff] at hno ⊢
    obtain ⟨h1, a1⟩ := step_silent c e s h hno.1
    obtain ⟨h2, a2⟩ := ih (step e s).1 h1 hno.2
    exact ⟨h2, by simp [timeoutAlerts_append, a1, a2]⟩

/-- A timeout check of any channel keeps `c` armed at `t` (flag clear, last
update `t`) as long as the check of `c` itself reads an elapsed time of at most
the deadline. -/
theorem checkTimeoutOf_keeps_armed (d c : Channel) (now t : Nat) (s : State)
    (h : s.alertSent c = false) (ht : s.lastUpdate c = t)
    (hd : d = c → ulongSub now t ≤ SENSOR_TIMEOUT_MS) :
    ((checkTimeoutOf d now s).1.alertSent c = false ∧
      (checkTimeoutOf d now s).1.lastUpdate c = t) ∧
    timeoutAlerts c (checkTimeoutOf d now s).2 = 0 := by
  obtain ⟨hf, ha⟩ := checkTimeoutOf_armed d c now s h (by rw [ht]; exact hd)
  exact ⟨⟨hf, (checkTimeoutOf_frame d c now s).2.1.trans ht⟩, ha⟩

/-- One call that applies no update to `c` and whose timeout check of `c`, if
any, reads an elapsed time of at most the deadline keeps `c` armed at `t` and
sends no silence notification naming `c`. -/
theorem step_armed (c : Channel) (t : Nat) (e : Event) (s : State)
    (h : s.alertSent c = false) (ht : s.lastUpdate c = t)
    (hno : updateApplied c (step e s).2 = false)
    (hclk : ∀ n, checkClock c e = some n → ulongSub n t ≤ SENSOR_TIMEOUT_MS) :
    ((step e s).1.alertSent c = false ∧ (step e s).1.lastUpdate c = t) ∧
    timeoutAlerts c (step e s).2 = 0 := by
  cases e with
  | update now received =>
    obtain ⟨hs, hf⟩ := updateSensorValue_frame c now received s
    exact ⟨⟨(hf hno).2.2.trans h, (hf hno).2.1.trans ht⟩, by simp [step, timeoutAlerts, hs]⟩
  | verify =>
    obtain ⟨hs, ha, _⟩ := verifyThresholdsAndNotify_frame c s
    simp only [step]
    rw [hs]
    exact ⟨⟨h, ht⟩, by simpa [step, hs] using ha⟩
  | check d now =>
    exact checkTimeoutOf_keeps_armed d c now t s h ht
      (fun hdc => hclk now (by simp [checkClock, hdc]))
  | checkAll nh nt nl =>
    obtain ⟨⟨h1, t1⟩, a1⟩ := checkTimeoutOf_keeps_armed .humidity c nh t s h ht
      (fun hdc => hclk nh (by subst hdc; rfl))
    obtain ⟨⟨h2, t2⟩, a2⟩ := checkTimeoutOf_keeps_armed .temperature c nt t _ h1 t1
      (fun hdc => hclk nt (by subst hdc; rfl))
    obtain ⟨⟨h3, t3⟩, a3⟩ := checkTimeoutOf_keeps_armed .light c nl t _ h2 t2
      (fun hdc => hclk nl (by subst hdc; rfl))
    exact ⟨⟨h3, t3⟩, by simp [step, checkSensorTimeouts, timeoutAlerts_append, a1, a2, a3]⟩

/-- Any sequence of such calls keeps `c` armed at `t` and sends no silence
notification naming `c`. -/
theorem run_armed (c : Channel) (t : Nat) (es : List Event) (s : State)
    (h : s.alertSent c = false) (ht : s.lastUpdate c = t)
    (hno : updateApplied c (run es s).2 = false)
    (hclk : ∀ e ∈ es, ∀ n, checkClock c e = some n → ulongSub n t ≤ SENSOR_TIMEOUT_MS) :
    ((run es s).1.alertSent c = false ∧ (run es s).1.lastUpdate c = t) ∧
    timeoutAlerts c (run es s).2 = 0 := by
  induction es generalizing s with
  | nil => exact ⟨⟨h, ht⟩, rfl⟩
  | cons e es ih =>
    simp only [run, updateApplied_append, Bool.or_eq_false_iff] at hno ⊢
    obtain ⟨⟨h1, t1⟩, a1⟩ := step_armed c t e s h ht hno.1
      (hclk e (List.mem_cons_self e es))
    obtain ⟨h2, a2⟩ := ih (step e s).1 h1 t1 hno.2
      (fun e2 he2 => hclk e2 (List.mem_cons_of_mem e he2))
    exact ⟨h2, by simp [timeoutAlerts_append, a1, a2]⟩

theorem run_checks_no_update (c d : Channel) (nows : List Nat) (s : State) :
    updateApplied c (run (nows.map (Event.check d)) s).2 = false := by
  induction nows generalizing s with
  | nil => rfl
  | cons n ns ih =>
    simp [run, step, updateApplied_append, (checkTimeoutOf_frame d c n s).2.2.1, ih]

/-! ## Executions: one alert per silence episode, re-arming -/

/-- C6: at most one timeout alert per silence episode.  Once the timeout check
of a channel has emitted its notification, any later sequence of calls (updates,
threshold evaluations, timeout checks of any channel at any clock readings, whole
`checkSensorTimeouts` passes) in which no update is applied to that channel emits
no further silence notification for it, and the flag stays set.  In particular,
for a channel whose last update is older than the deadline and whose alert has
not been sent yet, the first check followed by any number of repeated checks
emits exactly one notification in total. -/
theorem timeout_alert_once_per_episode (c : Channel) :
    (∀ (s : State) (now : Nat) (es : List Event),
      0 < timeoutAlerts c (checkTimeoutOf c now s).2 →
      updateApplied c (run es (checkTimeoutOf c now s).1).2 = false →
      timeoutAlerts c (checkTimeoutOf c now s).2 = 1 ∧
      timeoutAlerts c (run es (checkTimeoutOf c now s).1).2 = 0 ∧
      (run es (checkTimeoutOf c now s).1).1.alertSent c = true) ∧
    (∀ (s : State) (now : Nat) (nows : List Nat),
      20000 < ulongSub now (s.lastUpdate c) → s.alertSent c = false →
      timeoutAlerts c (checkTimeoutOf c now s).2 = 1 ∧
      timeoutAlerts c (run (nows.map (Event.check c)) (checkTimeoutOf c now s).1).2 = 0 ∧
      timeoutAlerts c (run (Event.check c now :: nows.map (Event.check c)) s).2 = 1) := by
  constructor
  · intro s now es hemit hno
    have hfire : 20000 < ulongSub now (s.lastUpdate c) ∧ s.alertSent c = false := by
      by_contra hcon
      have hq : checkTimeoutOf c now s = (s, []) :=
      checkTimeoutOf_quiet_of_not hcon
      rw [hq] at hemit
      exact absurd hemit (by simp [timeoutAlerts_nil])
    obtain ⟨he, hs, _⟩ := checkTimeoutOf_fires c now s hfire.1 hfire.2
    obtain ⟨h2, a2⟩ := run_silent c es _ hs hno
    exact ⟨by simp [he, timeoutAlerts, sent], a2, h2⟩
  · intro s now nows hold hflag
    obtain ⟨he, hs, _⟩ := checkTimeoutOf_fires c now s hold hflag
    obtain ⟨_, a2⟩ := run_silent c (nows.map (Event.check c)) _ hs
      (run_checks_no_update c c nows _)
    have h1 : timeoutAlerts c (checkTimeoutOf c now s).2 = 1 := by
      simp [he, timeoutAlerts, sent]
    exact ⟨h1, a2, by simp only [run, step, timeoutAlerts_append, h1, a2]⟩

/-- Witness of C6: the light sensor never reports; its check at clock 30000
fires, and the later calls (an applied humidity update, a threshold evaluation,
a full pass of timeout checks, one more light check) add nothing for light. -/
theorem timeout_alert_once_per_episode_witness :
    0 < timeoutAlerts .light (checkTimeoutOf .light 30000 State.initial).2 ∧
    updateApplied .light
      (run [.update 31000 ⟨1, .fin 50⟩, .verify, .checkAll 60000 60000 60000,
        .check .light 70000] (checkTimeoutOf .light 30000 State.initial).1).2 = false ∧
    timeoutAlerts .light (checkTimeoutOf .light 30000 State.initial).2 = 1 ∧
    timeoutAlerts .light
      (run [.update 31000 ⟨1, .fin 50⟩, .verify, .checkAll 60000 60000 60000,
        .check .light 70000] (checkTimeoutOf .light 30000 State.initial).1).2 = 0 ∧
    (run [.update 31000 ⟨1, .fin 50⟩, .verify, .checkAll 60000 60000 60000,
        .check .light 70000] (checkTimeoutOf .light 30000 State.initial).1).1.alertSent
      .light = true :=
  have h1 : 0 < timeoutAlerts .light (checkTimeoutOf .light 30000 State.initial).2 := by
    decide
  have h2 : updateApplied .light
      (run [.update 31000 ⟨1, .fin 50⟩, .verify, .checkAll 60000 60000 60000,
        .check .light 70000] (checkTimeoutOf .light 30000 State.initial).1).2 = false := by
    norm_num [run, step, updateSensorValue, verifyThresholdsAndNotify, alertBuffer,
      checkSensorTimeouts, checkTimeoutOf, checkTimeout, updatedLog, updateApplied,
      CFloat.lt_fin, CFloat.near_fin, CFloat.near_fin_inv, ulongSub, ULONG_RANGE, SENSOR_TIMEOUT_MS,
      THRESHOLD_LIGHT, THRESHOLD_TEMP, THRESHOLD_HUM, State.initial, Channel.id]
  ⟨h1, h2, (timeout_alert_once_per_episode .light).1 State.initial 30000 _ h1 h2⟩

/-- The globals after the calls of `lightSilence`: light 100 stored at clock 1000
and the three timeout alerts sent. -/
theorem lightSilence_state :
    (run lightSilence State.initial).1 =
      { sensors := { light := .fin 100 }
        lastLightUpdate := 1000
        alertHumidityTimeoutSent := true
        alertTemperatureTimeoutSent := true
        alertLightTimeoutSent := true } := by
  norm_num [lightSilence, run, step, updateSensorValue, verifyThresholdsAndNotify,
    alertBuffer, checkSensorTimeouts, checkTimeoutOf, checkTimeout, updatedLog,
    CFloat.lt_fin, CFloat.near_fin, CFloat.near_fin_inv, ulongSub, ULONG_RANGE, SENSOR_TIMEOUT_MS,
    THRESHOLD_LIGHT, THRESHOLD_TEMP, THRESHOLD_HUM, State.initial]

/-- Counterexample to C7: after the calls of `lightSilence` the silence alert for
light has been sent once and the flag of the light channel is set; the valid
light reading 100 (channel id 3, value in [0,1000]) that arrives at clock 40000
equals the stored value 100, so `updateSensorValue` returns at the near-duplicate
test, before the reset, and the flag of the light channel is still set. -/
theorem light_reading_reset_counterexample :
    timeoutAlerts .light (run lightSilence State.initial).2 = 1 ∧
    (run lightSilence State.initial).1.alertLightTimeoutSent = true ∧
    CFloat.le (.fin 0) (.fin 100) = true ∧ CFloat.le (.fin 100) (.fin 1000) = true ∧
    (updateSensorValue 40000 ⟨3, .fin 100⟩
      (run lightSilence State.initial).1).1.alertLightTimeoutSent = true := by
  refine ⟨?_, ?_, ?_, ?_, ?_⟩
  · norm_num [lightSilence, run, step, updateSensorValue, verifyThresholdsAndNotify,
      alertBuffer, checkSensorTimeouts, checkTimeoutOf, checkTimeout, updatedLog,
      timeoutAlerts, sent, Channel.sensorName, CFloat.lt_fin, CFloat.near_fin, CFloat.near_fin_inv,
      ulongSub, ULONG_RANGE, SENSOR_TIMEOUT_MS, THRESHOLD_LIGHT, THRESHOLD_TEMP,
      THRESHOLD_HUM, State.initial]
    decide
  · rw [lightSilence_state]
  · norm_num [CFloat.le]
  · norm_num [CFloat.le]
  · rw [lightSilence_state]
    norm_num [updateSensorValue, CFloat.lt_fin, CFloat.near_fin, CFloat.near_fin_inv]

/-- C7 (amended): every valid light reading (channel id 3, value in [0,1000])
whose value differs from the stored light value by at least 0.1 resets the
timeout-alert flag of the light channel to false, also after a timeout alert
has been sent, and restarts its silence window at the clock reading `now`: the
next light check that reads an elapsed time above 20000 ms emits one more
silence alert.  A valid light reading that differs from the stored light value
by at most 26843545 / 2^28 (about 0.0999999978) is dropped as a near-duplicate:
it changes no global, so a flag that is set stays set. -/
theorem light_reading_resets_flag (now : Nat) (v : CFloat) (s : State)
    (hlo : CFloat.le (.fin 0) v = true) (hhi : CFloat.le v (.fin 1000) = true) :
    (CFloat.le (.fin (1 / 10)) (CFloat.fabs (CFloat.exactSub v s.sensors.light)) = true →
      (updateSensorValue now ⟨3, v⟩ s).1.alertLightTimeoutSent = false ∧
      ∀ later : Nat, 20000 < ulongSub later now →
        sent (checkTimeoutOf .light later (updateSensorValue now ⟨3, v⟩ s).1).2 =
          [.timeout "luz"]) ∧
    (CFloat.le (CFloat.fabs (CFloat.exactSub v s.sensors.light))
        (.fin (26843545 / 268435456)) = true →
      (updateSensorValue now ⟨3, v⟩ s).1 = s) := by
  refine ⟨fun hdiff => ?_, fun hclose => ?_⟩
  · obtain ⟨⟨_, ht, hf⟩, _⟩ := updateSensorValue_of_not_near now ⟨3, v⟩ s .light rfl
      (CFloat.lt_eq_false_of_le hlo) (CFloat.lt_eq_false_of_le hhi)
      (CFloat.not_near_of_far hdiff)
    refine ⟨hf, fun later hlate => ?_⟩
    have hfire := checkTimeoutOf_fires .light later
      (updateSensorValue now ⟨3, v⟩ s).1 (by rw [ht]; exact hlate) hf
    rw [hfire.1]
    rfl
  · exact (updateSensorValue_of_near now ⟨3, v⟩ s .light rfl
      (CFloat.near_of_close hclose)).1

/-- Witness of C7 (amended): after the calls of `lightSilence` the flag of the
light channel is set; the light reading 100.5 at clock 40000 clears it, and the
light reading 100 changes nothing. -/
theorem light_reading_resets_flag_witness :
    (run lightSilence State.initial).1.alertLightTimeoutSent = true ∧
    (updateSensorValue 40000 ⟨3, .fin (201 / 2)⟩
      (run lightSilence State.initial).1).1.alertLightTimeoutSent = false ∧
    (updateSensorValue 40000 ⟨3, .fin 100⟩ (run lightSilence State.initial).1).1 =
      (run lightSilence State.initial).1 :=
  ⟨by rw [lightSilence_state],
    ((light_reading_resets_flag 40000 (.fin (201 / 2)) (run lightSilence State.initial).1
      (by norm_num [CFloat.le]) (by norm_num [CFloat.le])).1
      (by rw [lightSilence_state]; norm_num [CFloat.le_fin, CFloat.fabs, CFloat.exactSub,
        abs_of_pos])).1,
    (light_reading_resets_flag 40000 (.fin 100) (run lightSilence State.initial).1
      (by norm_num [CFloat.le]) (by norm_num [CFloat.le])).2
      (by rw [lightSilence_state]; norm_num [CFloat.le_fin, CFloat.fabs, CFloat.exactSub])⟩

/-- C8: re-arming.  After an update is applied to a channel at clock reading `t`
(whether or not its alert had been sent before), any calls that apply no further
update to it and whose checks of the channel read an elapsed time `now - t` of at
most 20000 ms emit no silence notification for it; the first check that reads an
elapsed time above 20000 ms emits exactly one, naming the channel; and the calls
after that, as long as no update is applied to the channel, emit none.  The
whole execution emits exactly one silence notification for the channel. -/
theorem rearm_after_update (c : Channel) (s : State) (t : Nat) (received : SensorData)
    (es1 es2 : List Event) (now : Nat)
    (happlied : updateApplied c (updateSensorValue t received s).2 = true)
    (hno1 : updateApplied c (run es1 (updateSensorValue t received s).1).2 = false)
    (hearly : ∀ e ∈ es1, ∀ n, checkClock c e = some n → ulongSub n t ≤ 20000)
    (hlate : 20000 < ulongSub now t)
    (hno2 : updateApplied c
      (run es2 (checkTimeoutOf c now
        (run es1 (updateSensorValue t received s).1).1).1).2 = false) :
    timeoutAlerts c (run es1 (updateSensorValue t received s).1).2 = 0 ∧
    sent (checkTimeoutOf c now (run es1 (updateSensorValue t received s).1).1).2 =
      [.timeout c.sensorName] ∧
    timeoutAlerts c
      (run es2 (checkTimeoutOf c now
        (run es1 (updateSensorValue t received s).1).1).1).2 = 0 ∧
    timeoutAlerts c
      (run (Event.update t received :: es1 ++ Event.check c now :: es2) s).2 = 1 := by
  obtain ⟨_, ht, hf⟩ := updateSensorValue_of_applied c t received s happlied
  obtain ⟨⟨hf1, ht1⟩, a1⟩ := run_armed c t es1 _ hf ht hno1 hearly
  obtain ⟨he, hs2, _⟩ := checkTimeoutOf_fires c now
    (run es1 (updateSensorValue t received s).1).1 (by rw [ht1]; exact hlate) hf1
  obtain ⟨_, a3⟩ := run_silent c es2 _ hs2 hno2
  have a2 : timeoutAlerts c
      (checkTimeoutOf c now (run es1 (updateSensorValue t received s).1).1).2 = 1 := by
    simp [he, timeoutAlerts, sent]
  have a0 : timeoutAlerts c (updateSensorValue t received s).2 = 0 := by
    simp [timeoutAlerts, (updateSensorValue_frame c t received s).1]
  refine ⟨a1, by simp [he, sent], a3, ?_⟩
  rw [List.cons_append, run_cons, run_append, run_cons]
  simp only [step, timeoutAlerts_append, a0, a1, a2, a3]

/-- Witness of C8: after the calls of `lightSilence` the light channel is silent
(alert sent); the light reading 200 is applied at clock 40000; the checks up to
clock 60000 emit nothing (the reading 200.05 in between is not applied), the
check at clock 60001 emits the alert, the later checks emit nothing. -/
theorem rearm_after_update_witness :
    (run lightSilence State.initial).1.alertSent .light = true ∧
    timeoutAlerts .light
      (run (Event.update 40000 ⟨3, .fin 200⟩ ::
          [.check .light 50000, .update 55000 ⟨3, .fin (4001 / 20)⟩, .verify,
            .checkAll 60000 60000 60000] ++
          Event.check .light 60001 :: [.check .light 90000, .checkAll 95000 95000 95000])
        (run lightSilence State.initial).1).2 = 1 :=
  ⟨by rw [lightSilence_state]; rfl,
    (rearm_after_update .light (run lightSilence State.initial).1 40000 ⟨3, .fin 200⟩
      [.check .light 50000, .update 55000 ⟨3, .fin (4001 / 20)⟩, .verify,
        .checkAll 60000 60000 60000]
      [.check .light 90000, .checkAll 95000 95000 95000] 60001
      (by rw [lightSilence_state]
          norm_num [updateSensorValue, updatedLog, updateApplied, CFloat.lt_fin, CFloat.near_fin,
            CFloat.near_fin_inv, Channel.id])
      (by rw [lightSilence_state]
          norm_num [run, step, updateSensorValue, verifyThresholdsAndNotify, alertBuffer,
            checkSensorTimeouts, checkTimeoutOf, checkTimeout, updatedLog, updateApplied,
            CFloat.lt_fin, CFloat.near_fin, CFloat.near_fin_inv, ulongSub, ULONG_RANGE, SENSOR_TIMEOUT_MS,
            THRESHOLD_LIGHT, THRESHOLD_TEMP, THRESHOLD_HUM, Channel.id, abs_le])
      (by
        intro e he n hn
        simp only [List.mem_cons, List.mem_singleton, List.not_mem_nil, or_false] at he
        rcases he with rfl | rfl | rfl | rfl <;> simp [checkClock] at hn <;> subst hn <;>
          norm_num [ulongSub, ULONG_RANGE])
      (by norm_num [ulongSub, ULONG_RANGE])
      (by rw [lightSilence_state]
          norm_num [run, step, updateSensorValue, verifyThresholdsAndNotify, alertBuffer,
            checkSensorTimeouts, checkTimeoutOf, checkTimeout, updatedLog, updateApplied,
            CFloat.lt_fin, CFloat.near_fin, CFloat.near_fin_inv, ulongSub, ULONG_RANGE, SENSOR_TIMEOUT_MS,
            THRESHOLD_LIGHT, THRESHOLD_TEMP, THRESHOLD_HUM, Channel.id, abs_le])).2.2.2⟩

/-! ## The threshold evaluator: `verifyThresholdsAndNotify` -/

theorem alertBuffer_eq (s : State) :
    alertBuffer s =
      (if CFloat.lt (.fin 500) s.sensors.light = true then
        [AlertLine.light s.sensors.light] else []) ++
      (if CFloat.lt (.fin 24) s.sensors.temperature = true then
        [AlertLine.temperature s.sensors.temperature] else []) ++
      (if CFloat.lt (.fin 80) s.sensors.humidity = true then
        [AlertLine.humidity s.sensors.humidity] else []) := by
  unfold alertBuffer THRESHOLD_LIGHT THRESHOLD_TEMP THRESHOLD_HUM
  by_cases hl : CFloat.lt (.fin 500) s.sensors.light = true <;>
    by_cases ht : CFloat.lt (.fin 24) s.sensors.temperature = true <;>
    by_cases hh : CFloat.lt (.fin 80) s.sensors.humidity = true <;>
    simp [hl, ht, hh]

/-- C9: `verifyThresholdsAndNotify` hands the notifier exactly one combined
message when at least one stored value strictly exceeds its threshold (light
above 500, temperature above 24, humidity above 80) and no message otherwise.
The lines of the message are the light line, the temperature line and the
humidity line, in this order, each present exactly when the stored value of its
channel is strictly above its threshold and each carrying that stored value; a
state whose three values equal their thresholds sends nothing. -/
theorem verifyThresholdsAndNotify_message (s : State) :
    ((CFloat.lt (.fin 500) s.sensors.light = true ∨
        CFloat.lt (.fin 24) s.sensors.temperature = true ∨
        CFloat.lt (.fin 80) s.sensors.humidity = true) →
      sent (verifyThresholdsAndNotify s).2 =
        [.sensorAlert
          ((if CFloat.lt (.fin 500) s.sensors.light = true then
              [AlertLine.light s.sensors.light] else []) ++
            (if CFloat.lt (.fin 24) s.sensors.temperature = true then
              [AlertLine.temperature s.sensors.temperature] else []) ++
            (if CFloat.lt (.fin 80) s.sensors.humidity = true then
              [AlertLine.humidity s.sensors.humidity] else []))]) ∧
    (¬(CFloat.lt (.fin 500) s.sensors.light = true ∨
        CFloat.lt (.fin 24) s.sensors.temperature = true ∨
        CFloat.lt (.fin 80) s.sensors.humidity = true) →
      sent (verifyThresholdsAndNotify s).2 = []) ∧
    ((s.sensors.light = .fin 500 ∧ s.sensors.temperature = .fin 24 ∧
        s.sensors.humidity = .fin 80) →
      sent (verifyThresholdsAndNotify s).2 = []) := by
  refine ⟨fun h => ?_, fun h => ?_, fun h => ?_⟩
  · have hne : alertBuffer s ≠ [] := by
      rw [alertBuffer_eq]
      rcases h with h | h | h <;> simp [h]
    unfold verifyThresholdsAndNotify
    simp only [hne, ne_eq, not_false_eq_true, if_true, sent]
    rw [alertBuffer_eq]
  · have he : alertBuffer s = [] := by
      rw [alertBuffer_eq]
      simp only [not_or] at h
      simp [h.1, h.2.1, h.2.2]
    unfold verifyThresholdsAndNotify
    simp [he, sent]
  · have he : alertBuffer s = [] := by
      rw [alertBuffer_eq, h.1, h.2.1, h.2.2]
      simp [CFloat.lt]
    unfold verifyThresholdsAndNotify
    simp [he, sent]

/-- Witness of C9: with temperature 25.0 stored (applied to the initial state)
the message consists of the temperature line. -/
theorem verifyThresholdsAndNotify_message_witness :
    sent (verifyThresholdsAndNotify
      (updateSensorValue 1000 ⟨2, .fin 25⟩ State.initial).1).2 =
      [.sensorAlert [AlertLine.temperature (.fin 25)]] := by
  have h := (verifyThresholdsAndNotify_message
    (updateSensorValue 1000 ⟨2, .fin 25⟩ State.initial).1).1
    (Or.inr (Or.inl (by norm_num [updateSensorValue, CFloat.lt_fin, CFloat.near_fin, CFloat.near_fin_inv,
      State.initial])))
  rw [h]
  norm_num [updateSensorValue, CFloat.lt_fin, CFloat.near_fin, CFloat.near_fin_inv, State.initial]

/-- C10: threshold evaluation is pure in the current state.  A call of
`verifyThresholdsAndNotify` changes no field of the state (values, last-update
times, timeout flags), and two calls in a row with no update in between produce
the same effects: the same composite message, or no message, both times. -/
theorem verifyThresholdsAndNotify_pure (s : State) :
    (verifyThresholdsAndNotify s).1 = s ∧
    (verifyThresholdsAndNotify (verifyThresholdsAndNotify s).1).2 =
      (verifyThresholdsAndNotify s).2 ∧
    run [.verify, .verify] s =
      (s, (verifyThresholdsAndNotify s).2 ++ (verifyThresholdsAndNotify s).2) := by
  have h : (verifyThresholdsAndNotify s).1 = s := (verifyThresholdsAndNotify_frame .light s).1
  refine ⟨h, by rw [h], ?_⟩
  simp [run, step, h]

theorem verifyThresholdsAndNotify_sent_nil (s : State)
    (h : ¬(CFloat.lt (.fin 500) s.sensors.light = true ∨
      CFloat.lt (.fin 24) s.sensors.temperature = true ∨
      CFloat.lt (.fin 80) s.sensors.humidity = true)) :
    (verifyThresholdsAndNotify s).2 = [] := by
  have he : alertBuffer s = [] := by
    rw [alertBuffer_eq]
    simp only [not_or] at h
    simp [h.1, h.2.1, h.2.2]
  unfold verifyThresholdsAndNotify
  simp [he]

theorem verifyThresholdsAndNotify_sent_length (s : State) :
    (sent (verifyThresholdsAndNotify s).2).length ≤ 1 := by
  unfold verifyThresholdsAndNotify
  by_cases h : alertBuffer s = [] <;> simp [h, sent]

/-! ## The datagram interface: `listenUDP` -/

theorem sizeofSensorData_eq : sizeofSensorData = 8 := by decide

theorem offsetofData_eq : offsetofData = 4 := by decide

theorem drainUDP_cons_empty (d : Datagram) (ds : List Datagram) (s : State)
    (h : d.bytes.length = 0) : drainUDP (d :: ds) s = (s, []) := by
  simp [drainUDP, h]

theorem drainUDP_cons_record (d : Datagram) (ds : List Datagram) (s : State)
    (h : d.bytes.length = sizeofSensorData) :
    drainUDP (d :: ds) s =
      ((drainUDP ds (updateSensorValue d.clock (readSensorData d.bytes) s).1).1,
        (updateSensorValue d.clock (readSensorData d.bytes) s).2 ++
          (drainUDP ds (updateSensorValue d.clock (readSensorData d.bytes) s).1).2) := by
  have h0 : d.bytes.length ≠ 0 := by rw [h, sizeofSensorData_eq]; decide
  rw [drainUDP, if_neg h0, if_pos h]

theorem drainUDP_cons_other (d : Datagram) (ds : List Datagram) (s : State)
    (h0 : d.bytes.length ≠ 0) (h : d.bytes.length ≠ sizeofSensorData) :
    drainUDP (d :: ds) s =
      ((drainUDP ds s).1, .serial .unexpectedSize :: (drainUDP ds s).2) := by
  rw [drainUDP, if_neg h0, if_neg h]

/-- The loop of `listenUDP` sends no message. -/
theorem drainUDP_sent (pending : List Datagram) (s : State) :
    sent (drainUDP pending s).2 = [] := by
  induction pending generalizing s with
  | nil => rfl
  | cons d ds ih =>
    by_cases h0 : d.bytes.length = 0
    · rw [drainUDP_cons_empty d ds s h0]; rfl
    · by_cases h : d.bytes.length = sizeofSensorData
      · rw [drainUDP_cons_record d ds s h, sent_append, ih]
        simp [(updateSensorValue_frame .light d.clock (readSensorData d.bytes) s).1]
      · rw [drainUDP_cons_other d ds s h0 h]
        simp [sent, ih]

/-- When no waiting datagram is without payload, the loop of `listenUDP` handles
all of them, in arrival order. -/
theorem drainUDP_state (pending : List Datagram) (s : State)
    (hne : ∀ d ∈ pending, d.bytes.length ≠ 0) :
    (drainUDP pending s).1 = pending.foldl receive s := by
  induction pending generalizing s with
  | nil => rfl
  | cons d ds ih =>
    have h0 := hne d (List.mem_cons_self d ds)
    have hds : ∀ e ∈ ds, e.bytes.length ≠ 0 := fun e he => hne e (List.mem_cons_of_mem d he)
    by_cases h : d.bytes.length = sizeofSensorData
    · rw [drainUDP_cons_record d ds s h]
      simp [receive, h, ih _ hds]
    · rw [drainUDP_cons_other d ds s h0 h]
      simp [receive, h, ih _ hds]

/-- The function `listenUDP` evaluates the thresholds once, on the state that
its loop leaves, and sends nothing else. -/
theorem listenUDP_eq (pending : List Datagram) (s : State) :
    (listenUDP pending s).1 = (drainUDP pending s).1 ∧
    sent (listenUDP pending s).2 =
      sent (verifyThresholdsAndNotify (drainUDP pending s).1).2 ∧
    (sent (listenUDP pending s).2).length ≤ 1 := by
  have h1 : sent (listenUDP pending s).2 =
      sent (verifyThresholdsAndNotify (drainUDP pending s).1).2 := by
    simp [listenUDP, sent_append, drainUDP_sent]
  refine ⟨?_, h1, ?_⟩
  · simp [listenUDP, (verifyThresholdsAndNotify_frame .light _).1]
  · rw [h1]
    exact verifyThresholdsAndNotify_sent_length _

/-- Counterexample to C11: the 5-byte datagram made of the id byte 3 and the four
bytes of the `float` 600.0 is not decoded: `listenUDP` prints the unexpected-size
line and leaves the globals alone, although a reading of light 600 passed to
`updateSensorValue` would have been stored. -/
theorem five_byte_datagram_counterexample :
    floatOfBits (0 + 256 * 0 + 65536 * 22 + 16777216 * 68) = .fin 600 ∧
    listenUDP [⟨[3, 0, 0, 22, 68], 1000⟩] State.initial =
      (State.initial, [.serial .unexpectedSize]) ∧
    State.initial.sensors.light = .fin 0 ∧
    (updateSensorValue 1000 ⟨3, .fin 600⟩ State.initial).1.sensors.light = .fin 600 := by
  refine ⟨by norm_num [floatOfBits], ?_, rfl, ?_⟩
  · have hd : drainUDP [⟨[3, 0, 0, 22, 68], 1000⟩] State.initial =
        (State.initial, [.serial .unexpectedSize]) := by
      rw [drainUDP_cons_other _ _ _ (by decide) (by decide)]
      rfl
    have hv : verifyThresholdsAndNotify State.initial = (State.initial, []) := by
      norm_num [verifyThresholdsAndNotify, alertBuffer, State.initial, CFloat.lt,
        THRESHOLD_LIGHT, THRESHOLD_TEMP, THRESHOLD_HUM]
    simp [listenUDP, hd, hv]
  · norm_num [updateSensorValue, State.initial, CFloat.lt_fin, CFloat.near_fin, CFloat.near_fin_inv]

/-- C11 (amended): the inbound wire record is the record `SensorData` as it lies
in memory, `sizeof(SensorData)` = 8 bytes: the id byte, three padding bytes, and
the 4-byte `float` at offset 4.  The loop of `listenUDP` reads a datagram into a
record and passes it to `updateSensorValue` when the length of the datagram is
exactly 8 bytes, and drops a datagram of any other length without reading it
(with the unexpected-size line, or by ending the loop when it has no payload). -/
theorem listenUDP_reads_iff_sizeof (d : Datagram) (ds : List Datagram) (s : State) :
    sizeofSensorData = 8 ∧ offsetofData = 4 ∧
    (d.bytes.length = 8 →
      drainUDP (d :: ds) s =
        ((drainUDP ds (updateSensorValue d.clock (readSensorData d.bytes) s).1).1,
          (updateSensorValue d.clock (readSensorData d.bytes) s).2 ++
            (drainUDP ds (updateSensorValue d.clock (readSensorData d.bytes) s).1).2) ∧
      listenUDP [d] s = run [.update d.clock (readSensorData d.bytes), .verify] s) ∧
    (d.bytes.length ≠ 8 →
      (drainUDP (d :: ds) s =
          ((drainUDP ds s).1, .serial .unexpectedSize :: (drainUDP ds s).2) ∨
        drainUDP (d :: ds) s = (s, [])) ∧
      (listenUDP [d] s).1 = s) := by
  refine ⟨sizeofSensorData_eq, offsetofData_eq, fun h => ?_, fun h => ?_⟩
  · have hs : d.bytes.length = sizeofSensorData := by rw [sizeofSensorData_eq]; exact h
    refine ⟨drainUDP_cons_record d ds s hs, ?_⟩
    unfold listenUDP
    rw [drainUDP_cons_record d [] s hs]
    simp [drainUDP, run, step]
  · have hs : d.bytes.length ≠ sizeofSensorData := by rw [sizeofSensorData_eq]; exact h
    by_cases h0 : d.bytes.length = 0
    · refine ⟨Or.inr (drainUDP_cons_empty d ds s h0), ?_⟩
      unfold listenUDP
      rw [drainUDP_cons_empty d [] s h0]
      exact (verifyThresholdsAndNotify_frame .light s).1
    · refine ⟨Or.inl (drainUDP_cons_other d ds s h0 hs), ?_⟩
      unfold listenUDP
      rw [drainUDP_cons_other d [] s h0 hs]
      exact (verifyThresholdsAndNotify_frame .light s).1

/-- Witness of C11 (amended): the 8-byte datagram with id 3 and the `float`
600.0 at offset 4 is read as the reading of light 600 and stored. -/
theorem listenUDP_reads_iff_sizeof_witness :
    readSensorData [3, 0, 0, 0, 0, 0, 22, 68] = ⟨3, .fin 600⟩ ∧
    (listenUDP [⟨[3, 0, 0, 0, 0, 0, 22, 68], 1000⟩] State.initial).1.sensors.light =
      .fin 600 := by
  have hr : readSensorData [3, 0, 0, 0, 0, 0, 22, 68] = ⟨3, .fin 600⟩ := by
    norm_num [readSensorData, byteAt, offsetofData, alignUp, CType.uint8_t, CType.float,
      floatOfBits]
  refine ⟨hr, ?_⟩
  rw [((listenUDP_reads_iff_sizeof ⟨[3, 0, 0, 0, 0, 0, 22, 68], 1000⟩ [] State.initial).2.2.1
    rfl).2]
  simp only [hr]
  norm_num [run, step, updateSensorValue, (verifyThresholdsAndNotify_frame .light _).1,
    State.initial, CFloat.lt_fin, CFloat.near_fin, CFloat.near_fin_inv]

/-- A poll whose only waiting datagram does not have the length of the record
leaves the globals alone and sends what the threshold evaluation of the
unchanged state sends. -/
theorem listenUDP_single_other (d : Datagram) (s : State)
    (h : d.bytes.length ≠ sizeofSensorData) :
    (listenUDP [d] s).1 = s ∧
    sent (listenUDP [d] s).2 = sent (verifyThresholdsAndNotify s).2 := by
  have hd : (drainUDP [d] s).1 = s := by
    by_cases h0 : d.bytes.length = 0
    · rw [drainUDP_cons_empty d [] s h0]
    · rw [drainUDP_cons_other d [] s h0 h]; rfl
  obtain ⟨h1, h2, _⟩ := listenUDP_eq [d] s
  exact ⟨h1.trans hd, by rw [h2, hd]⟩

/-- Counterexample to C12: temperature 25.0 is stored, above its threshold 24;
the poll whose only waiting datagram has 3 bytes changes no global, but it does
emit a notification, the threshold alert with the temperature line. -/
theorem malformed_poll_counterexample :
    (listenUDP [⟨[1, 2, 3], 2000⟩]
      (updateSensorValue 1000 ⟨2, .fin 25⟩ State.initial).1).1 =
      (updateSensorValue 1000 ⟨2, .fin 25⟩ State.initial).1 ∧
    sent (listenUDP [⟨[1, 2, 3], 2000⟩]
      (updateSensorValue 1000 ⟨2, .fin 25⟩ State.initial).1).2 =
      [.sensorAlert [.temperature (.fin 25)]] := by
  obtain ⟨h1, h2⟩ := listenUDP_single_other ⟨[1, 2, 3], 2000⟩
    (updateSensorValue 1000 ⟨2, .fin 25⟩ State.initial).1 (by decide)
  refine ⟨h1, ?_⟩
  rw [h2]
  norm_num [updateSensorValue, verifyThresholdsAndNotify, alertBuffer, sent, State.initial,
    CFloat.lt_fin, CFloat.near_fin, CFloat.near_fin_inv, THRESHOLD_LIGHT, THRESHOLD_TEMP, THRESHOLD_HUM]

/-- C12 (amended): for every sensor state, a poll of `listenUDP` whose only
waiting datagram is malformed (its length differs from the 8 bytes of the record,
for example length 3) changes no field of the sensor state and emits no
notification of its own: it sends exactly what a poll with no waiting datagram
sends, which is the threshold alert of the unchanged state when a stored value
is above its threshold, and nothing when none is. -/
theorem listenUDP_malformed (d : Datagram) (s : State) (h : d.bytes.length ≠ 8) :
    (listenUDP [d] s).1 = s ∧
    sent (listenUDP [d] s).2 = sent (listenUDP [] s).2 ∧
    sent (listenUDP [d] s).2 = sent (verifyThresholdsAndNotify s).2 ∧
    (¬(CFloat.lt (.fin 500) s.sensors.light = true ∨
        CFloat.lt (.fin 24) s.sensors.temperature = true ∨
        CFloat.lt (.fin 80) s.sensors.humidity = true) →
      sent (listenUDP [d] s).2 = []) := by
  obtain ⟨h1, h2⟩ := listenUDP_single_other d s (by rw [sizeofSensorData_eq]; exact h)
  have h3 : sent (listenUDP [] s).2 = sent (verifyThresholdsAndNotify s).2 :=
    (listenUDP_eq [] s).2.1
  refine ⟨h1, h2.trans h3.symm, h2, fun hq => ?_⟩
  rw [h2, verifyThresholdsAndNotify_sent_nil s hq]
  rfl

/-- Witness of C12 (amended): a datagram of 3 bytes polled in the initial state,
where no threshold is exceeded: nothing changes and nothing is sent. -/
theorem listenUDP_malformed_witness :
    (listenUDP [⟨[1, 2, 3], 2000⟩] State.initial).1 = State.initial ∧
    sent (listenUDP [⟨[1, 2, 3], 2000⟩] State.initial).2 = [] :=
  have h := listenUDP_malformed ⟨[1, 2, 3], 2000⟩ State.initial (by decide)
  ⟨h.1, h.2.2.2 (by norm_num [State.initial, CFloat.lt])⟩

/-- For a batch of waiting datagrams none of which is without payload, one poll
applies all of them in arrival order and evaluates the thresholds once, on the
state reached after the last one: at most one threshold notification is sent. -/
theorem listenUDP_once_after_all (pending : List Datagram) (s : State)
    (hne : ∀ d ∈ pending, d.bytes.length ≠ 0) :
    (listenUDP pending s).1 = pending.foldl receive s ∧
    sent (listenUDP pending s).2 =
      sent (verifyThresholdsAndNotify (pending.foldl receive s)).2 ∧
    (sent (listenUDP pending s).2).length ≤ 1 := by
  obtain ⟨h1, h2, h3⟩ := listenUDP_eq pending s
  rw [drainUDP_state pending s hne] at h1 h2
  exact ⟨h1, h2, h3⟩

/-- C13, at the failing input: two datagrams are waiting, the first without
payload, the second the 8-byte record of light 600.0.  The call of
`udp.parsePacket()` for the first one returns 0 and ends the loop, so the poll
evaluates the thresholds on the initial state and sends nothing, while the state
reached after both datagrams holds light 600 and its evaluation sends the alert. -/
theorem listenUDP_stops_at_empty_datagram :
    listenUDP [⟨[], 1000⟩, ⟨[3, 0, 0, 0, 0, 0, 22, 68], 1000⟩] State.initial =
      (State.initial, []) ∧
    ([⟨[], 1000⟩, ⟨[3, 0, 0, 0, 0, 0, 22, 68], 1000⟩].foldl receive
      State.initial).sensors.light = .fin 600 ∧
    sent (verifyThresholdsAndNotify
      ([⟨[], 1000⟩, ⟨[3, 0, 0, 0, 0, 0, 22, 68], 1000⟩].foldl receive State.initial)).2 =
      [.sensorAlert [.light (.fin 600)]] := by
  have hr : readSensorData [3, 0, 0, 0, 0, 0, 22, 68] = ⟨3, .fin 600⟩ := by
    norm_num [readSensorData, byteAt, offsetofData, alignUp, CType.uint8_t, CType.float,
      floatOfBits]
  have hv : verifyThresholdsAndNotify State.initial = (State.initial, []) := by
    norm_num [verifyThresholdsAndNotify, alertBuffer, State.initial, CFloat.lt,
      THRESHOLD_LIGHT, THRESHOLD_TEMP, THRESHOLD_HUM]
  have hf : [⟨[], 1000⟩, ⟨[3, 0, 0, 0, 0, 0, 22, 68], 1000⟩].foldl receive State.initial =
      (updateSensorValue 1000 ⟨3, .fin 600⟩ State.initial).1 := by
    have e1 : receive State.initial ⟨[], 1000⟩ = State.initial := if_neg (by decide)
    have e2 : ∀ t : State, receive t ⟨[3, 0, 0, 0, 0, 0, 22, 68], 1000⟩ =
        (updateSensorValue 1000 (readSensorData [3, 0, 0, 0, 0, 0, 22, 68]) t).1 :=
      fun t => if_pos (by decide)
    rw [List.foldl, List.foldl, List.foldl, e1, e2, hr]
  refine ⟨?_, ?_, ?_⟩
  · unfold listenUDP
    rw [drainUDP_cons_empty ⟨[], 1000⟩ _ State.initial rfl]
    simp [hv]
  · rw [hf]
    norm_num [updateSensorValue, State.initial, CFloat.lt_fin, CFloat.near_fin, CFloat.near_fin_inv]
  · rw [hf]
    norm_num [updateSensorValue, verifyThresholdsAndNotify, alertBuffer, sent, State.initial,
      CFloat.lt_fin, CFloat.near_fin, CFloat.near_fin_inv, THRESHOLD_LIGHT, THRESHOLD_TEMP, THRESHOLD_HUM]

/-! ## Soundness of a change, not-a-number readings -/

theorem CFloat.le_of_lt_eq_false {a b : CFloat} (ha : a ≠ .nan) (hb : b ≠ .nan)
    (h : CFloat.lt b a = false) : CFloat.le a b = true := by
  cases a <;> cases b <;> simp_all [CFloat.le, CFloat.lt]

/-- A value that passes the range test of `updateSensorValue` and is not
not-a-number is finite. -/
theorem CFloat.finite_of_in_range {v : CFloat} (hn : v ≠ .nan)
    (hlo : CFloat.lt v (.fin 0) = false) (hhi : CFloat.lt (.fin 1000) v = false) :
    ∃ q : ℚ, v = .fin q := by
  cases v with
  | nan => exact absurd rfl hn
  | negInf => simp [CFloat.lt] at hlo
  | posInf => simp [CFloat.lt] at hhi
  | fin q => exact ⟨q, rfl⟩

/-- When `updateSensorValue` prints the update line for a channel, the reading
was addressed to the channel, passed the range test and failed the
near-duplicate test. -/
theorem updateSensorValue_applied_conditions (c : Channel) (now : Nat)
    (received : SensorData) (s : State)
    (h : updateApplied c (updateSensorValue now received s).2 = true) :
    received.id = c.id ∧ CFloat.lt received.data (.fin 0) = false ∧
    CFloat.lt (.fin 1000) received.data = false ∧
    CFloat.lt (CFloat.fabs (CFloat.sub received.data (s.value c))) (.fin (1 / 10)) = false := by
  unfold updateSensorValue at h
  split at h
  · simp [updateApplied] at h
  · split at h <;> (try split at h) <;> cases c <;>
      simp_all [updatedLog, updateApplied, Channel.id, State.value]

/-- A reading addressed to another channel prints no update line for `c`. -/
theorem updateSensorValue_other_id (c : Channel) (now : Nat) (received : SensorData)
    (s : State) (h : received.id ≠ c.id) :
    updateApplied c (updateSensorValue now received s).2 = false := by
  by_contra hcon
  simp only [Bool.not_eq_false] at hcon
  exact h (updateSensorValue_applied_conditions c now received s hcon).1

/-- Apart from not-a-number, a stored value only changes for a valid reading:
if neither the reading nor the stored value is not-a-number and
`updateSensorValue` changes the stored value of a channel, the reading was
addressed to that channel, its value lies in [0,1000], it differs from the
stored value by more than 26843545 / 2^28 (so that the binary32 difference is
not below 0.1), and the flag of the channel is false afterwards. -/
theorem updateSensorValue_change_sound (c : Channel) (now : Nat) (received : SensorData)
    (s : State) (hn : received.data ≠ .nan) (hs : s.value c ≠ .nan)
    (hch : (updateSensorValue now received s).1.value c ≠ s.value c) :
    received.id = c.id ∧
    CFloat.le (.fin 0) received.data = true ∧ CFloat.le received.data (.fin 1000) = true ∧
    CFloat.lt (.fin (26843545 / 268435456))
      (CFloat.fabs (CFloat.exactSub received.data (s.value c))) = true ∧
    (updateSensorValue now received s).1.alertSent c = false := by
  have happ : updateApplied c (updateSensorValue now received s).2 = true := by
    by_contra hcon
    simp only [Bool.not_eq_true] at hcon
    exact hch ((updateSensorValue_frame c now received s).2 hcon).1
  obtain ⟨hid, hlo, hhi, hfar⟩ := updateSensorValue_applied_conditions c now received s happ
  obtain ⟨q, hq⟩ := CFloat.finite_of_in_range hn hlo hhi
  refine ⟨hid, CFloat.le_of_lt_eq_false (by simp) hn hlo,
    CFloat.le_of_lt_eq_false hn (by simp) hhi, ?_,
    (updateSensorValue_of_applied c now received s happ).2.2⟩
  rw [hq] at hfar ⊢
  cases hv : s.value c with
  | nan => exact absurd hv hs
  | negInf => simp [CFloat.exactSub, CFloat.fabs, CFloat.lt]
  | posInf => simp [CFloat.exactSub, CFloat.fabs, CFloat.lt]
  | fin x =>
    rw [hv, CFloat.near_fin, decide_eq_false_iff_not] at hfar
    simp only [CFloat.exactSub, CFloat.fabs, CFloat.lt_fin, decide_eq_true_eq]
    exact not_le.mp hfar

/-- C14, at the failing input: the datagram with id 1 whose `float` has the bit
pattern `7FC00000` is read as a humidity reading that is not-a-number.  Both
comparisons of the range test are false for it and so is the near-duplicate
test, so `updateSensorValue` stores it: the stored humidity changes from 0 to
not-a-number although the value of the reading does not lie in [0,1000]. -/
theorem nan_reading_changes_value :
    readSensorData [1, 0, 0, 0, 0, 0, 192, 127] = ⟨1, .nan⟩ ∧
    State.initial.value .humidity = .fin 0 ∧
    (updateSensorValue 1000 ⟨1, .nan⟩ State.initial).1.value .humidity = .nan ∧
    CFloat.le (.fin 0) .nan = false ∧ CFloat.le .nan (.fin 1000) = false := by
  refine ⟨?_, rfl, ?_, rfl, rfl⟩
  · norm_num [readSensorData, byteAt, offsetofData, alignUp, CType.uint8_t, CType.float,
      floatOfBits]
  · simp [updateSensorValue, State.initial, State.value, CFloat.lt, CFloat.sub, CFloat.fabs]

/-! ## Unchanged data and silence -/

/-- One call in which every reading addressed to `c` is within 0.1 of the stored
value `v` of `c` prints no update line for `c` and keeps the stored value. -/
theorem step_near_only (c : Channel) (e : Event) (s : State)
    (hnear : ∀ clk r, e = Event.update clk r → r.id = c.id →
      CFloat.lt (CFloat.fabs (CFloat.sub r.data (s.value c))) (.fin (1 / 10)) = true) :
    updateApplied c (step e s).2 = false ∧ (step e s).1.value c = s.value c := by
  cases e with
  | update clk r =>
    have hno : updateApplied c (updateSensorValue clk r s).2 = false := by
      by_cases hid : r.id = c.id
      · exact (updateSensorValue_of_near clk r s c hid (hnear clk r rfl hid)).2
      · exact updateSensorValue_other_id c clk r s hid
    exact ⟨hno, ((updateSensorValue_frame c clk r s).2 hno).1⟩
  | verify =>
    obtain ⟨hs, _, ha⟩ := verifyThresholdsAndNotify_frame c s
    exact ⟨ha, by simp only [step]; rw [hs]⟩
  | check d now =>
    obtain ⟨hv, _, ha, _⟩ := checkTimeoutOf_frame d c now s
    exact ⟨ha, hv⟩
  | checkAll nh nt nl =>
    obtain ⟨v1, _, a1, _⟩ := checkTimeoutOf_frame .humidity c nh s
    obtain ⟨v2, _, a2, _⟩ := checkTimeoutOf_frame .temperature c nt
      (checkTimeoutOf .humidity nh s).1
    obtain ⟨v3, _, a3, _⟩ := checkTimeoutOf_frame .light c nl
      (checkTimeoutOf .temperature nt (checkTimeoutOf .humidity nh s).1).1
    exact ⟨by simp [step, checkSensorTimeouts, updateApplied_append, a1, a2, a3],
      by simp only [step, checkSensorTimeouts]; rw [v3, v2, v1]⟩

/-- Any sequence of such calls prints no update line for `c` and keeps its
stored value. -/
theorem run_near_only (c : Channel) (es : List Event) (s : State)
    (hnear : ∀ clk r, Event.update clk r ∈ es → r.id = c.id →
      CFloat.lt (CFloat.fabs (CFloat.sub r.data (s.value c))) (.fin (1 / 10)) = true) :
    updateApplied c (run es s).2 = false ∧ (run es s).1.value c = s.value c := by
  induction es generalizing s with
  | nil => exact ⟨rfl, rfl⟩
  | cons e es ih =>
    obtain ⟨a1, v1⟩ := step_near_only c e s
      (fun clk r he => hnear clk r (he ▸ List.mem_cons_self e es))
    obtain ⟨a2, v2⟩ := ih (step e s).1
      (fun clk r hm => by rw [v1]; exact hnear clk r (List.mem_cons_of_mem e hm))
    exact ⟨by simp [run, updateApplied_append, a1, a2], by simp only [run]; rw [v2, v1]⟩

/-- Counterexample to C15: humidity 0.11f (bit pattern `3DE147AE`) is stored at
clock 1000 and the flag of the humidity channel is false.  The only reading that
follows, humidity 0.01f (bit pattern `3C23D70A`) at clock 2000, is within 0.1 of the stored value (the values differ by
0.0999999996), but the binary32 subtraction of the sketch rounds the difference
up to 0.1f and the reading is applied: the last-update time does not stay 1000
but becomes 2000, and the timeout check at clock 21001, where 20001 ms have
passed since clock 1000, sends nothing. -/
theorem unchanged_data_rounding_counterexample :
    floatOfBits 1038174126 = .fin (7381975 / 67108864) ∧
    floatOfBits 1008981770 = .fin (5368709 / 536870912) ∧
    (updateSensorValue 1000 ⟨1, .fin (7381975 / 67108864)⟩ State.initial).1.alertSent
      .humidity = false ∧
    (updateSensorValue 1000 ⟨1, .fin (7381975 / 67108864)⟩ State.initial).1.lastUpdate
      .humidity = 1000 ∧
    CFloat.lt (CFloat.fabs (CFloat.exactSub (.fin (5368709 / 536870912))
      ((updateSensorValue 1000 ⟨1, .fin (7381975 / 67108864)⟩ State.initial).1.value
        .humidity))) (.fin (1 / 10)) = true ∧
    (run [.update 2000 ⟨1, .fin (5368709 / 536870912)⟩]
      (updateSensorValue 1000 ⟨1, .fin (7381975 / 67108864)⟩ State.initial).1).1.lastUpdate
      .humidity = 2000 ∧
    20000 < ulongSub 21001 1000 ∧
    sent (checkTimeoutOf .humidity 21001
      (run [.update 2000 ⟨1, .fin (5368709 / 536870912)⟩]
        (updateSensorValue 1000 ⟨1, .fin (7381975 / 67108864)⟩ State.initial).1).1).2 = [] := by
  rw [humidity_stored_state]
  have hrun : (run [.update 2000 ⟨1, .fin (5368709 / 536870912)⟩]
      { sensors := { humidity := .fin (7381975 / 67108864) }, lastHumidityUpdate := 1000 }).1 =
      { sensors := { humidity := .fin (5368709 / 536870912) }, lastHumidityUpdate := 2000 } := by
    norm_num [run, step, updateSensorValue, CFloat.lt_fin, CFloat.near_fin,
      CFloat.near_fin_inv, abs_le]
  rw [hrun]
  refine ⟨floatOfBits_counterexample_values.1, floatOfBits_counterexample_values.2, rfl, rfl,
    ?_, rfl, by norm_num [ulongSub, ULONG_RANGE], ?_⟩
  · norm_num [State.value, CFloat.exactSub, CFloat.fabs, CFloat.lt_fin, abs_lt]
  · norm_num [checkTimeoutOf, checkTimeout, sent, ulongSub, ULONG_RANGE, SENSOR_TIMEOUT_MS]

/-- C15 (amended): a sensor that keeps transmitting unchanged data is still
flagged silent.  For a channel whose flag is false and whose last applied update
was at clock reading `t`: through any calls in which every reading for the
channel is within 26843545 / 2^28 (about 0.0999999978) of its stored value
(however many, whatever the stored value, readings for the other channels and
threshold evaluations in between) and in which the timeout checks of the channel
read an elapsed time of at most 20000 ms, the last-update time stays `t`, the
stored value stays, and no silence notification is sent; the first timeout check
that reads `now - t` above 20000 ms then emits the silence notification for the
channel. -/
theorem unchanged_data_still_silent (c : Channel) (s : State) (t : Nat)
    (es : List Event) (now : Nat)
    (hflag : s.alertSent c = false) (ht : s.lastUpdate c = t)
    (hnear : ∀ clk r, Event.update clk r ∈ es → r.id = c.id →
      CFloat.le (CFloat.fabs (CFloat.exactSub r.data (s.value c)))
        (.fin (26843545 / 268435456)) = true)
    (hearly : ∀ e ∈ es, ∀ n, checkClock c e = some n → ulongSub n t ≤ 20000)
    (hlate : 20000 < ulongSub now t) :
    (run es s).1.lastUpdate c = t ∧ (run es s).1.value c = s.value c ∧
    timeoutAlerts c (run es s).2 = 0 ∧
    sent (checkTimeoutOf c now (run es s).1).2 = [.timeout c.sensorName] := by
  obtain ⟨hno, hv⟩ := run_near_only c es s
    (fun clk r hm hid => CFloat.near_of_close (hnear clk r hm hid))
  obtain ⟨⟨hf1, ht1⟩, a1⟩ := run_armed c t es s hflag ht hno hearly
  obtain ⟨he, _, _⟩ := checkTimeoutOf_fires c now (run es s).1 (by rw [ht1]; exact hlate) hf1
  exact ⟨ht1, hv, a1, by simp [he, sent]⟩

/-- Witness of C15 (amended): temperature 25.0, above its threshold, is stored
at clock 1000; the sensor then sends 25.0 and 25.05 again and again; the check
at clock 21001 reports the temperature sensor as silent. -/
theorem unchanged_data_still_silent_witness :
    (updateSensorValue 1000 ⟨2, .fin 25⟩ State.initial).1.lastUpdate .temperature = 1000 ∧
    sent (checkTimeoutOf .temperature 21001
      (run [.update 5000 ⟨2, .fin 25⟩, .verify, .check .temperature 5000,
          .update 10000 ⟨2, .fin (501 / 20)⟩, .verify, .update 20000 ⟨2, .fin 25⟩]
        (updateSensorValue 1000 ⟨2, .fin 25⟩ State.initial).1).1).2 =
      [.timeout "temperatura"] := by
  refine ⟨by rw [temperature_stored_state]; rfl, ?_⟩
  exact (unchanged_data_still_silent .temperature
    (updateSensorValue 1000 ⟨2, .fin 25⟩ State.initial).1 1000
    [.update 5000 ⟨2, .fin 25⟩, .verify, .check .temperature 5000,
      .update 10000 ⟨2, .fin (501 / 20)⟩, .verify, .update 20000 ⟨2, .fin 25⟩] 21001
    (by rw [temperature_stored_state]; rfl) (by rw [temperature_stored_state]; rfl)
    (by
      intro clk r hm _
      rw [temperature_stored_state]
      simp only [List.mem_cons, List.mem_singleton, List.not_mem_nil, or_false,
        Event.update.injEq, false_or, reduceCtorEq] at hm
      rcases hm with ⟨_, rfl⟩ | ⟨_, rfl⟩ | ⟨_, rfl⟩ <;>
        norm_num [State.value, CFloat.exactSub, CFloat.fabs, CFloat.le_fin, abs_of_pos])
    (by
      intro e he n hn
      simp only [List.mem_cons, List.mem_singleton, List.not_mem_nil, or_false] at he
      rcases he with rfl | rfl | rfl | rfl | rfl | rfl <;> simp [checkClock] at hn
      subst hn
      norm_num [ulongSub, ULONG_RANGE])
    (by norm_num [ulongSub, ULONG_RANGE])).2.2.2

/-! ## The range of the stored values -/

/-- Apart from not-a-number, the stored values stay in [0,1000]: one call whose
reading, if it is an update, is not not-a-number keeps every stored value in
[0,1000]. -/
theorem step_values_in_range (e : Event) (s : State)
    (hs : ∀ c, CFloat.le (.fin 0) (s.value c) = true ∧
      CFloat.le (s.value c) (.fin 1000) = true)
    (hn : ∀ clk r, e = Event.update clk r → r.data ≠ .nan) (c : Channel) :
    CFloat.le (.fin 0) ((step e s).1.value c) = true ∧
    CFloat.le ((step e s).1.value c) (.fin 1000) = true := by
  cases e with
  | update clk r =>
    by_cases happ : updateApplied c (updateSensorValue clk r s).2 = true
    · obtain ⟨_, hlo, hhi, _⟩ := updateSensorValue_applied_conditions c clk r s happ
      have hv := (updateSensorValue_of_applied c clk r s happ).1
      simp only [step]
      rw [hv]
      exact ⟨CFloat.le_of_lt_eq_false (by simp) (hn clk r rfl) hlo,
        CFloat.le_of_lt_eq_false (hn clk r rfl) (by simp) hhi⟩
    · simp only [Bool.not_eq_true] at happ
      simp only [step]
      rw [((updateSensorValue_frame c clk r s).2 happ).1]
      exact hs c
  | verify =>
    simp only [step]
    rw [(verifyThresholdsAndNotify_frame c s).1]
    exact hs c
  | check d now =>
    simp only [step]
    rw [(checkTimeoutOf_frame d c now s).1]
    exact hs c
  | checkAll nh nt nl =>
    simp only [step, checkSensorTimeouts]
    rw [(checkTimeoutOf_frame .light c nl _).1, (checkTimeoutOf_frame .temperature c nt _).1,
      (checkTimeoutOf_frame .humidity c nh s).1]
    exact hs c

/-- From the initial state, any sequence of calls none of whose readings is
not-a-number keeps every stored value in [0,1000]. -/
theorem run_values_in_range (es : List Event) (s : State)
    (hs : ∀ c, CFloat.le (.fin 0) (s.value c) = true ∧
      CFloat.le (s.value c) (.fin 1000) = true)
    (hn : ∀ clk r, Event.update clk r ∈ es → r.data ≠ .nan) (c : Channel) :
    CFloat.le (.fin 0) ((run es s).1.value c) = true ∧
    CFloat.le ((run es s).1.value c) (.fin 1000) = true := by
  induction es generalizing s with
  | nil => exact hs c
  | cons e es ih =>
    exact ih (step e s).1
      (step_values_in_range e s hs (fun clk r he => hn clk r (he ▸ List.mem_cons_self e es)))
      (fun clk r hm => hn clk r (List.mem_cons_of_mem e hm))

/-- C16, at the failing input: in the initial state one poll cycle receives the
8-byte datagram with id 1 whose `float` is not-a-number (bit pattern `7FC00000`).
The reading passes the range test, because both of its comparisons are false for
not-a-number, and is stored: the stored humidity is not-a-number afterwards,
which does not lie in [0,1000]. -/
theorem nan_reading_breaks_range :
    (loop [⟨[1, 0, 0, 0, 0, 0, 192, 127], 1000⟩] 1000 1000 1000
      State.initial).1.sensors.humidity = .nan ∧
    CFloat.le (.fin 0) .nan = false ∧ CFloat.le .nan (.fin 1000) = false := by
  have hr : readSensorData [1, 0, 0, 0, 0, 0, 192, 127] = ⟨1, .nan⟩ := by
    norm_num [readSensorData, byteAt, offsetofData, alignUp, CType.uint8_t, CType.float,
      floatOfBits]
  refine ⟨?_, rfl, rfl⟩
  have hl : (listenUDP [⟨[1, 0, 0, 0, 0, 0, 192, 127], 1000⟩] State.initial).1 =
      (updateSensorValue 1000 ⟨1, .nan⟩ State.initial).1 := by
    rw [(listenUDP_eq _ _).1, drainUDP_cons_record _ _ _ (by decide)]
    simp only [hr]
    rfl
  have hv : ∀ t : State, (checkSensorTimeouts 1000 1000 1000 t).1.sensors = t.sensors := by
    intro t
    simp [checkSensorTimeouts, checkTimeoutOf]
  simp only [loop]
  rw [hv, hl]
  simp [updateSensorValue, State.initial, CFloat.lt, CFloat.sub, CFloat.fabs]

/-! ## Channel independence, repeated readings, clock wraparound -/

theorem Channel.id_injective {c d : Channel} (h : c.id = d.id) : c = d := by
  cases c <;> cases d <;> first | rfl | exact absurd h (by decide)

/-- C17: channel independence.  A call of `updateSensorValue` with a reading
addressed to channel `c` leaves the stored value, the last-update time and the
timeout-alert flag of every other channel unchanged; the timeout check of
channel `c` leaves every stored value and every last-update time unchanged, and
the flag of every other channel too: it changes nothing except possibly the
flag of `c`. -/
theorem channel_independence (c d : Channel) (hdc : d ≠ c) (now : Nat)
    (received : SensorData) (s : State) :
    (received.id = c.id →
      (updateSensorValue now received s).1.value d = s.value d ∧
      (updateSensorValue now received s).1.lastUpdate d = s.lastUpdate d ∧
      (updateSensorValue now received s).1.alertSent d = s.alertSent d) ∧
    ((checkTimeoutOf c now s).1.sensors = s.sensors ∧
      (∀ e : Channel, (checkTimeoutOf c now s).1.lastUpdate e = s.lastUpdate e) ∧
      (checkTimeoutOf c now s).1.alertSent d = s.alertSent d) := by
  refine ⟨fun hid => ?_, ?_, fun e => ?_, ?_⟩
  · have hne : received.id ≠ d.id := fun h => hdc (Channel.id_injective (h.symm.trans hid))
    exact (updateSensorValue_frame d now received s).2
      (updateSensorValue_other_id d now received s hne)
  · cases c <;> rfl
  · exact (checkTimeoutOf_frame c e now s).2.1
  · exact ((checkTimeoutOf_frame c d now s).2.2.2 (Ne.symm hdc)).1

/-- Witness of C17: a light reading and a light check in a state where the flag
of the humidity channel is set. -/
theorem channel_independence_witness :
    (updateSensorValue 7 ⟨3, .fin 600⟩ (run lightSilence State.initial).1).1.alertSent
      .humidity = (run lightSilence State.initial).1.alertSent .humidity :=
  ((channel_independence .light .humidity (by decide) 7 ⟨3, .fin 600⟩
    (run lightSilence State.initial).1).1 rfl).2.2

/-- A reading addressed to none of the three channels changes no global. -/
theorem updateSensorValue_unknown_id (now : Nat) (received : SensorData) (s : State)
    (h : ∀ c : Channel, received.id ≠ c.id) : (updateSensorValue now received s).1 = s := by
  unfold updateSensorValue
  split
  · rfl
  · split
    · exact absurd (by assumption) (h .humidity)
    · exact absurd (by assumption) (h .temperature)
    · exact absurd (by assumption) (h .light)
    · rfl

/-- Apart from not-a-number, `updateSensorValue` is idempotent in the reading:
a reading that is not not-a-number, applied again at any later clock reading,
changes nothing. -/
theorem updateSensorValue_idempotent (t1 t2 : Nat) (r : SensorData) (s : State)
    (hn : r.data ≠ .nan) :
    (updateSensorValue t2 r (updateSensorValue t1 r s).1).1 = (updateSensorValue t1 r s).1 := by
  by_cases hr : (CFloat.lt r.data (.fin 0) || CFloat.lt (.fin 1000) r.data) = true
  · have h1 : updateSensorValue t1 r s = (s, [.serial .outOfRange]) := by
      simp [updateSensorValue, hr]
    rw [h1]
    simp [updateSensorValue, hr]
  · simp only [Bool.or_eq_true, not_or, Bool.not_eq_true] at hr
    obtain ⟨q, hq⟩ := CFloat.finite_of_in_range hn hr.1 hr.2
    have hself : ∀ v : CFloat, v = r.data →
        CFloat.lt (CFloat.fabs (CFloat.sub r.data v)) (.fin (1 / 10)) = true := by
      intro v hv
      rw [hv, hq, CFloat.near_fin]
      norm_num
    by_cases hc : ∃ c : Channel, r.id = c.id
    · obtain ⟨c, hid⟩ := hc
      by_cases hnear : CFloat.lt (CFloat.fabs (CFloat.sub r.data (s.value c)))
          (.fin (1 / 10)) = true
      · rw [(updateSensorValue_of_near t1 r s c hid hnear).1]
        exact (updateSensorValue_of_near t2 r s c hid hnear).1
      · simp only [Bool.not_eq_true] at hnear
        obtain ⟨⟨hv, _, _⟩, _⟩ := updateSensorValue_of_not_near t1 r s c hid hr.1 hr.2 hnear
        exact (updateSensorValue_of_near t2 r _ c hid (hself _ hv)).1
    · push_neg at hc
      rw [updateSensorValue_unknown_id t1 r s hc]
      exact updateSensorValue_unknown_id t2 r s hc

/-- C18, at the failing input: the humidity reading that is not-a-number (the
datagram with id 1 and the `float` bit pattern `7FC00000`) is applied to the
initial state at clock 1000 and again at clock 2000.  The near-duplicate test is
false for not-a-number, so the second call stores the reading once more and
moves the last-update time of humidity from 1000 to 2000: applying the reading
twice does not give the state of applying it once. -/
theorem nan_reading_not_idempotent :
    readSensorData [1, 0, 0, 0, 0, 0, 192, 127] = ⟨1, .nan⟩ ∧
    (updateSensorValue 1000 ⟨1, .nan⟩ State.initial).1.lastHumidityUpdate = 1000 ∧
    (updateSensorValue 2000 ⟨1, .nan⟩
      (updateSensorValue 1000 ⟨1, .nan⟩ State.initial).1).1.lastHumidityUpdate = 2000 ∧
    (updateSensorValue 2000 ⟨1, .nan⟩ (updateSensorValue 1000 ⟨1, .nan⟩ State.initial).1).1 ≠
      (updateSensorValue 1000 ⟨1, .nan⟩ State.initial).1 := by
  have h1 : (updateSensorValue 1000 ⟨1, .nan⟩ State.initial).1.lastHumidityUpdate = 1000 := by
    simp [updateSensorValue, State.initial, CFloat.lt, CFloat.sub, CFloat.fabs]
  have h2 : (updateSensorValue 2000 ⟨1, .nan⟩
      (updateSensorValue 1000 ⟨1, .nan⟩ State.initial).1).1.lastHumidityUpdate = 2000 := by
    simp [updateSensorValue, State.initial, CFloat.lt, CFloat.sub, CFloat.fabs]
  refine ⟨?_, h1, h2, fun h => ?_⟩
  · norm_num [readSensorData, byteAt, offsetofData, alignUp, CType.uint8_t, CType.float,
      floatOfBits]
  · rw [h] at h2
    rw [h1] at h2
    exact absurd h2 (by decide)

/-- C19: the elapsed-time test of `checkTimeout` is right across the wraparound
of the 32-bit millisecond clock.  When the last update was at clock value
`lastUpdate` and the true elapsed time is `d` ms, both below `2^32`, the clock
reads `(lastUpdate + d) mod 2^32`, and the difference `millis() - lastUpdate`
computed on `unsigned long` is `d`, also when the clock value is the smaller of
the two; so `checkTimeout` sends its notification exactly when `d` is above
20000 and the alert has not been sent. -/
theorem checkTimeout_wraparound (lastUpdate d : Nat) (alertSent : Bool) (sensorName : String)
    (hl : lastUpdate < 4294967296) (hd : d < 4294967296) :
    ulongSub ((lastUpdate + d) % 4294967296) lastUpdate = d ∧
    (sent (checkTimeout ((lastUpdate + d) % 4294967296) lastUpdate alertSent sensorName).2 ≠ []
      ↔ (20000 < d ∧ alertSent = false)) := by
  have hsub : ulongSub ((lastUpdate + d) % 4294967296) lastUpdate = d := by
    unfold ulongSub ULONG_RANGE
    omega
  refine ⟨hsub, ?_⟩
  by_cases h : 20000 < d ∧ alertSent = false
  · obtain ⟨h1, h2⟩ := h
    subst h2
    rw [checkTimeout_fires (by rw [hsub]; exact h1)]
    simp [sent, h1]
  · have hq : ulongSub ((lastUpdate + d) % 4294967296) lastUpdate ≤ SENSOR_TIMEOUT_MS ∨
        alertSent = true := by
      rw [hsub]
      by_cases hf : alertSent = true
      · exact Or.inr hf
      · left
        simp only [Bool.not_eq_true] at hf
        simp only [hf, and_true, not_lt] at h
        exact h
    rw [checkTimeout_quiet hq]
    simp [sent, h]

/-- Witness of C19: the last update was 1000 ms before the clock wraps and 25000
ms have passed, so the clock reads 24000, less than the last-update time; the
computed difference is 25000 and the notification is sent. -/
theorem checkTimeout_wraparound_witness :
    (4294966296 + 25000) % 4294967296 = 24000 ∧
    ulongSub 24000 4294966296 = 25000 ∧
    sent (checkTimeout 24000 4294966296 false "luz").2 ≠ [] := by
  have h := checkTimeout_wraparound 4294966296 25000 false "luz" (by decide) (by decide)
  have e : (4294966296 + 25000) % 4294967296 = 24000 := by decide
  rw [e] at h
  exact ⟨e, h.1, h.2.mpr ⟨by decide, rfl⟩⟩

/-! ## The text of the threshold alert -/

/-- A value in [0,1000] is printed by `%.2f` with at most 7 bytes. -/
theorem printf2f_length_le (v : CFloat) (hlo : CFloat.le (.fin 0) v = true)
    (hhi : CFloat.le v (.fin 1000) = true) : (printf2f v).length ≤ 7 := by
  cases v with
  | nan => simp [CFloat.le] at hlo
  | negInf => simp [CFloat.le] at hlo
  | posInf => simp [CFloat.le] at hhi
  | fin q =>
    have h0 : (0 : ℚ) ≤ q := by simpa [CFloat.le] using hlo
    have h1 : q ≤ 1000 := by simpa [CFloat.le] using hhi
    have hr : roundHalfEven (|q| * 100) ≤ 100000 := by
      apply roundHalfEven_le
      · positivity
      · rw [abs_of_nonneg h0]
        push_cast
        linarith
    have hd : (Nat.toDigits 10 (roundHalfEven (|q| * 100) / 100)).length ≤ 4 :=
      Nat.toDigitsCore_length 10 (by decide) _ _ 4 (by norm_num; omega) (by decide)
    have hpoint : (utf8 ".").length = 1 := by decide
    simp only [printf2f, not_lt.mpr h0, if_false, List.nil_append, List.length_append,
      List.length_map, hpoint, List.length_cons, List.length_nil]
    omega

theorem snprintfAppend_fits (size : Nat) (buf text : List Nat)
    (h : buf.length + text.length + 1 ≤ size) : snprintfAppend size buf text = buf ++ text := by
  unfold snprintfAppend
  rw [List.take_of_length_le (by omega)]

theorem AlertLine.text_length (l : AlertLine) :
    0 < l.text.length ∧
    (match l with
      | .light v => l.text.length = 19 + (printf2f v).length
      | .temperature v => l.text.length = 28 + (printf2f v).length
      | .humidity v => l.text.length = 22 + (printf2f v).length) := by
  have a1 : (utf8 "🔆 Alta luz: ").length = 15 := by decide
  have a2 : (utf8 " lx\n").length = 4 := by decide
  have b1 : (utf8 "🌡 Alta temperatura: ").length = 23 := by decide
  have b2 : (utf8 " °C\n").length = 5 := by decide
  have c1 : (utf8 "💧 Alta humedad: ").length = 19 := by decide
  have c2 : (utf8 " %\n").length = 3 := by decide
  cases l <;> simp only [AlertLine.text, List.length_append, a1, a2, b1, b2, c1, c2] <;> omega

/-- Three conditional `snprintf` calls on the array of 256 bytes append their
whole texts when the three texts and the terminator fit together. -/
theorem snprintfAppend_three (b1 b2 b3 : Bool) (L T H : List Nat)
    (h : L.length + T.length + H.length + 1 ≤ 256) :
    (if b3 then
        snprintfAppend 256
          (if b2 then snprintfAppend 256 (if b1 then snprintfAppend 256 [] L else []) T
            else (if b1 then snprintfAppend 256 [] L else [])) H
      else
        (if b2 then snprintfAppend 256 (if b1 then snprintfAppend 256 [] L else []) T
          else (if b1 then snprintfAppend 256 [] L else []))) =
      (if b1 then L else []) ++ (if b2 then T else []) ++ (if b3 then H else []) := by
  cases b1 <;> cases b2 <;> cases b3
  all_goals simp only [Bool.false_eq_true, if_true, if_false, List.append_nil, List.nil_append]
  all_goals
    (try rw [snprintfAppend_fits 256 [] L (by simp only [List.length_nil]; omega)])
  all_goals
    (try rw [snprintfAppend_fits 256 _ T
      (by simp only [List.length_nil, List.length_append]; omega)])
  all_goals
    (try rw [snprintfAppend_fits 256 _ H
      (by simp only [List.length_nil, List.length_append]; omega)])
  all_goals simp

/-- C20: no truncation of the threshold alert.  For every sensor state whose
three stored values lie in [0,1000], each `snprintf` call of
`verifyThresholdsAndNotify` appends its whole line: the string in the array
`alert` is the concatenation of the complete lines of the channels above their
thresholds, and with its terminator it fits in the 256 bytes of `alert`; the
message, the header followed by that string, fits with its terminator in the
300 bytes of `message`, so it is delivered complete. -/
theorem alert_text_not_truncated (s : State)
    (hl : CFloat.le (.fin 0) s.sensors.light = true ∧
      CFloat.le s.sensors.light (.fin 1000) = true)
    (ht : CFloat.le (.fin 0) s.sensors.temperature = true ∧
      CFloat.le s.sensors.temperature (.fin 1000) = true)
    (hh : CFloat.le (.fin 0) s.sensors.humidity = true ∧
      CFloat.le s.sensors.humidity (.fin 1000) = true) :
    alertText s = (alertBuffer s).flatMap AlertLine.text ∧
    (alertText s).length + 1 ≤ 256 ∧
    messageText s =
      (if alertBuffer s = [] then none
        else some (utf8 "🚨 *Alerta de sensores:*\n\n" ++
          (alertBuffer s).flatMap AlertLine.text)) ∧
    (∀ m, messageText s = some m → m.length + 1 ≤ 300) := by
  have pl := printf2f_length_le _ hl.1 hl.2
  have pt := printf2f_length_le _ ht.1 ht.2
  have ph := printf2f_length_le _ hh.1 hh.2
  have tl := (AlertLine.text_length (.light s.sensors.light)).2
  have tt := (AlertLine.text_length (.temperature s.sensors.temperature)).2
  have th := (AlertLine.text_length (.humidity s.sensors.humidity)).2
  simp only [] at tl tt th
  have hhead : (utf8 "🚨 *Alerta de sensores:*\n\n").length = 28 := by decide
  have htext : alertText s =
      (if CFloat.lt (.fin 500) s.sensors.light = true then
        (AlertLine.light s.sensors.light).text else []) ++
      (if CFloat.lt (.fin 24) s.sensors.temperature = true then
        (AlertLine.temperature s.sensors.temperature).text else []) ++
      (if CFloat.lt (.fin 80) s.sensors.humidity = true then
        (AlertLine.humidity s.sensors.humidity).text else []) :=
    snprintfAppend_three _ _ _ _ _ _ (by omega)
  have hflat : (alertBuffer s).flatMap AlertLine.text = alertText s := by
    rw [htext, alertBuffer_eq]
    by_cases c1 : CFloat.lt (.fin 500) s.sensors.light = true <;>
      by_cases c2 : CFloat.lt (.fin 24) s.sensors.temperature = true <;>
      by_cases c3 : CFloat.lt (.fin 80) s.sensors.humidity = true <;>
      simp [c1, c2, c3]
  have hlen : (alertText s).length ≤ 90 := by
    rw [htext]
    simp only [List.length_append]
    split_ifs <;> (try simp only [List.length_nil]) <;> omega
  have hnil : alertText s = [] ↔ alertBuffer s = [] := by
    constructor
    · intro h
      by_contra hne
      obtain ⟨l, ls, hcons⟩ := List.exists_cons_of_ne_nil hne
      rw [← hflat, hcons] at h
      have hpos := (AlertLine.text_length l).1
      simp only [List.flatMap_cons, List.append_eq_nil] at h
      rw [h.1] at hpos
      exact absurd hpos (by decide)
    · intro h
      rw [← hflat, h]
      rfl
  have hmsg : messageText s =
      (if alertBuffer s = [] then none
        else some (utf8 "🚨 *Alerta de sensores:*\n\n" ++
          (alertBuffer s).flatMap AlertLine.text)) := by
    unfold messageText
    simp only []
    by_cases hb : alertBuffer s = []
    · simp [hb, hnil.mpr hb]
    · have ha : alertText s ≠ [] := fun h => hb (hnil.mp h)
      rw [if_pos ha, if_neg hb, hflat,
        snprintfAppend_fits 300 [] _
          (by simp only [List.length_nil, List.length_append, hhead]; omega)]
      rfl
  refine ⟨hflat.symm, by omega, hmsg, fun m hm => ?_⟩
  rw [hmsg] at hm
  split_ifs at hm with hb
  simp only [Option.some.injEq] at hm
  rw [← hm, hflat]
  simp only [List.length_append, hhead]
  omega

theorem printf2f_thousand : printf2f (.fin 1000) = utf8 "1000.00" := by
  have h : roundHalfEven (|(1000 : ℚ)| * 100) = 100000 := by
    have h : |(1000 : ℚ)| * 100 = ((100000 : ℕ) : ℚ) := by norm_num
    rw [h]
    simp [roundHalfEven]
  simp only [printf2f, h]
  norm_num
  decide

/-- Witness of C20: the longest alert, with the three stored values at 1000:
each value is printed as `1000.00`, the alert has 90 bytes and the message 118. -/
theorem alert_text_not_truncated_witness :
    printf2f (.fin 1000) = utf8 "1000.00" ∧
    (alertText { sensors := ⟨.fin 1000, .fin 1000, .fin 1000⟩ }).length = 90 ∧
    (∀ m, messageText { sensors := ⟨.fin 1000, .fin 1000, .fin 1000⟩ } = some m → m.length + 1 ≤ 300) := by
  have h := alert_text_not_truncated
    { sensors := ⟨.fin 1000, .fin 1000, .fin 1000⟩ }
    ⟨by norm_num [CFloat.le], by norm_num [CFloat.le]⟩
    ⟨by norm_num [CFloat.le], by norm_num [CFloat.le]⟩
    ⟨by norm_num [CFloat.le], by norm_num [CFloat.le]⟩
  have hb : alertBuffer { sensors := ⟨.fin 1000, .fin 1000, .fin 1000⟩ } =
      [.light (.fin 1000), .temperature (.fin 1000), .humidity (.fin 1000)] := by
    norm_num [alertBuffer, CFloat.lt, THRESHOLD_LIGHT, THRESHOLD_TEMP, THRESHOLD_HUM]
  refine ⟨printf2f_thousand, ?_, h.2.2.2⟩
  rw [h.1, hb]
  simp only [List.flatMap_cons, List.flatMap_nil, List.length_append, List.length_nil,
    AlertLine.text, printf2f_thousand]
  decide

end VerdeVital
